import Mathlib

/-! KNX datapoint type 19.001 (DateTime): `knx/dpt/types_19.go`

A shallow embedding of the `DPT_19001` codec (`Pack`, `Unpack`, `IsValid`, `String`)
together with the parts of Go's standard library it calls: from package `time`,
`time.Date` followed by `Time.Year`, `Time.Month`, `Time.Day`, transcribed from the
library's `norm`, `daysSinceEpoch`, `Date`, `absDate` and `isLeap` (the cycle-cutting
algorithm of Go 1.0 to 1.22); from package `fmt`, the verbs `%04d`, `%02d` and `%s` of
`Sprintf`, transcribed from the decimal branch of `fmtInteger`.

Conventions.
* Go `uint8`/`uint16` values are natural numbers; every operation that can leave the type
  is followed by an explicit reduction modulo `2^8`, `2^16` or `2^64`.
* Go `int` values are integers. Go's `/` and `%` on `int` truncate towards zero, so they
  are `Int.tdiv` and `Int.tmod`.
* A method with a pointer receiver returns the new receiver next to its result.
-/

namespace Knx

/-! ## The standard library calendar (`time.Date`, `Time.Year/Month/Day`) -/

namespace GoTime

def secondsPerMinute : Nat := 60
def secondsPerHour : Nat := 60 * secondsPerMinute
def secondsPerDay : Nat := 24 * secondsPerHour
def daysPer400Years : Nat := 365 * 400 + 97
def daysPer100Years : Nat := 365 * 100 + 24
def daysPer4Years : Nat := 365 * 4 + 1

/-- The year of the zero instant of the absolute time scale of package `time`. -/
def absoluteZeroYear : Int := -292277022399

/-- Conversion of a Go `int` to `uint64` (two's complement). -/
def u64 (x : Int) : Nat := (x % 18446744073709551616).toNat

/-- Reduction of an unsigned 64-bit result. -/
def w64 (n : Nat) : Nat := n % 18446744073709551616

/-- The table `daysBefore`: `daysBefore[m]` counts the days of a non-leap year that
precede month `m+1`. The code only reads indices `0..12`. -/
def daysBeforeTable : List Nat :=
  [0,
   31,
   31 + 28,
   31 + 28 + 31,
   31 + 28 + 31 + 30,
   31 + 28 + 31 + 30 + 31,
   31 + 28 + 31 + 30 + 31 + 30,
   31 + 28 + 31 + 30 + 31 + 30 + 31,
   31 + 28 + 31 + 30 + 31 + 30 + 31 + 31,
   31 + 28 + 31 + 30 + 31 + 30 + 31 + 31 + 30,
   31 + 28 + 31 + 30 + 31 + 30 + 31 + 31 + 30 + 31,
   31 + 28 + 31 + 30 + 31 + 30 + 31 + 31 + 30 + 31 + 30,
   31 + 28 + 31 + 30 + 31 + 30 + 31 + 31 + 30 + 31 + 30 + 31]

def daysBefore (i : Int) : Int := (daysBeforeTable.getD i.toNat 0 : Nat)

/-- Go: `year%4 == 0 && (year%100 != 0 || year%400 == 0)`. -/
def isLeap (year : Int) : Bool :=
  year.tmod 4 == 0 && (year.tmod 100 != 0 || year.tmod 400 == 0)

/-- Go: `norm(hi, lo, base)` returns `nhi, nlo` with `hi*base + lo == nhi*base + nlo`
and `0 <= nlo < base`. -/
def norm (hi lo base : Int) : Int × Int :=
  let n1 := (-lo - 1).tdiv base + 1
  let hi1 := if lo < 0 then hi - n1 else hi
  let lo1 := if lo < 0 then lo + n1 * base else lo
  let n2 := lo1.tdiv base
  let hi2 := if lo1 ≥ base then hi1 + n2 else hi1
  let lo2 := if lo1 ≥ base then lo1 - n2 * base else lo1
  (hi2, lo2)

/-- Go: `daysSinceEpoch(year)`, the number of days from the absolute epoch to the start
of `year`, in `uint64`. -/
def daysSinceEpoch (year : Int) : Nat :=
  let y := u64 (year - absoluteZeroYear)
  -- Add in days from 400-year cycles.
  let n := y / 400
  let y := y - 400 * n
  let d := w64 (daysPer400Years * n)
  -- Add in 100-year cycles.
  let n := y / 100
  let y := y - 100 * n
  let d := w64 (d + daysPer100Years * n)
  -- Add in 4-year cycles.
  let n := y / 4
  let y := y - 4 * n
  let d := w64 (d + daysPer4Years * n)
  -- Add in non-leap years.
  let n := y
  w64 (d + 365 * n)

/-- A `time.Time` in location UTC with zero nanoseconds, represented by the value its
method `abs()` returns: the seconds since the absolute epoch, in `uint64`. `time.Date`
stores `int64(abs) + (absoluteToInternal + internalToUnix) + unixToInternal` and `abs()`
adds `internalToAbsolute` back, both in wrapping 64-bit arithmetic, which is the identity;
the zone offset of UTC is zero. -/
structure Time where
  abs : Nat
deriving DecidableEq, Repr

/-- Go: `time.Date(year, month, day, hour, min, sec, 0, time.UTC)`. -/
def Date (year month day hour min sec : Int) : Time :=
  -- Normalize month, overflowing into year.
  let m := month - 1
  let ym := norm year m 12
  let year := ym.1
  let month := ym.2 + 1
  -- Normalize nsec, sec, min, hour, overflowing into day.
  let sn := norm sec 0 1000000000
  let sec := sn.1
  let ms := norm min sec 60
  let min := ms.1
  let sec := ms.2
  let hm := norm hour min 60
  let hour := hm.1
  let min := hm.2
  let dh := norm day hour 24
  let day := dh.1
  let hour := dh.2
  -- Compute days since the absolute epoch.
  let d := daysSinceEpoch year
  -- Add in days before this month.
  let d := w64 (d + u64 (daysBefore (month - 1)))
  let d := if isLeap year && month ≥ 3 then w64 (d + 1) else d
  -- Add in days before today.
  let d := w64 (d + u64 (day - 1))
  -- Add in time elapsed today.
  let abs := w64 (d * secondsPerDay)
  let abs := w64 (abs + u64 (hour * secondsPerHour + min * secondsPerMinute + sec))
  ⟨abs⟩

/-- The result of Go's `absDate`: `year`, `month`, `day` and `yday`. -/
structure YMD where
  year : Int
  month : Int
  day : Int
  yday : Int
deriving DecidableEq, Repr

/-- First half of Go's `absDate`: from the days `d` since the absolute epoch, the years
elapsed since the absolute zero year and the day within the year. -/
def absDateYear (d : Nat) : Nat × Nat :=
  -- Account for 400 year cycles.
  let n := d / daysPer400Years
  let y := 400 * n
  let d := d - daysPer400Years * n
  -- Cut off 100-year cycles; the last cycle has one extra leap year.
  let n := d / daysPer100Years
  let n := n - n >>> 2
  let y := y + 100 * n
  let d := d - daysPer100Years * n
  -- Cut off 4-year cycles.
  let n := d / daysPer4Years
  let y := y + 4 * n
  let d := d - daysPer4Years * n
  -- Cut off years within a 4-year cycle.
  let n := d / 365
  let n := n - n >>> 2
  let y := y + n
  let d := d - 365 * n
  (y, d)

/-- Second half of Go's `absDate` (the part run when `full` is set): month and day of the
month from the day within the year; `leap` is `isLeap(year)`. -/
def absDateMonthDay (leap : Bool) (yday : Int) : Int × Int :=
  if leap && yday == 31 + 29 - 1 then
    -- Leap day.
    (2, 29)
  else
    -- After leap day; pretend it was not there.
    let day := if leap && yday > 31 + 29 - 1 then yday - 1 else yday
    -- Estimate month on assumption that every month has 31 days.
    let month := day.tdiv 31
    let endDay := daysBefore (month + 1)
    let month1 := if day ≥ endDay then month + 1 else month
    let begin := if day ≥ endDay then endDay else daysBefore month
    (month1 + 1, day - begin + 1)

/-- Go: `absDate(abs, full)`. With `full = false` only `year` and `yday` are computed and
`month`, `day` keep their zero values. -/
def absDate (abs : Nat) (full : Bool) : YMD :=
  -- Split into time and day.
  let d := abs / secondsPerDay
  let yd := absDateYear d
  let year : Int := (yd.1 : Int) + absoluteZeroYear
  let yday : Int := (yd.2 : Int)
  if !full then ⟨year, 0, 0, yday⟩
  else
    let md := absDateMonthDay (isLeap year) yday
    ⟨year, md.1, md.2, yday⟩

/-- Go: `t.Year()`. -/
def Time.Year (t : Time) : Int := (absDate t.abs false).year

/-- Go: `t.Month()`. -/
def Time.Month (t : Time) : Int := (absDate t.abs true).month

/-- Go: `t.Day()`. -/
def Time.Day (t : Time) : Int := (absDate t.abs true).day

end GoTime

/-! ## The datapoint type -/

/-- Reduction of a result of type `uint8`. -/
def u8 (n : Nat) : Nat := n % 256

/-- Reduction of a result of type `uint16`; the argument may be negative (wrapping
subtraction). -/
def u16 (x : Int) : Nat := (x % 65536).toNat

/-- Go: `type DPT_19001 struct`. `Year` is a `uint16`, the other numeric fields are
`uint8`. -/
structure DPT_19001 where
  Year : Nat
  Month : Nat
  DayOfMonth : Nat
  DayOfWeek : Nat
  HourOfDay : Nat
  Minutes : Nat
  Seconds : Nat
  F : Bool
  WD : Bool
  NWD : Bool
  NY : Bool
  ND : Bool
  NDoW : Bool
  NT : Bool
  SUTI : Bool
  CLQ : Bool
deriving DecidableEq, Repr

/-- The values a Go `DPT_19001` can hold: `Year` fits `uint16`, the rest fit `uint8`. -/
def DPT_19001.InType (d : DPT_19001) : Prop :=
  d.Year < 65536 ∧ d.Month < 256 ∧ d.DayOfMonth < 256 ∧ d.DayOfWeek < 256 ∧
    d.HourOfDay < 256 ∧ d.Minutes < 256 ∧ d.Seconds < 256

instance (d : DPT_19001) : Decidable d.InType := by
  unfold DPT_19001.InType; infer_instance

/-- Go: `func (d DPT_19001) IsValid() bool`. -/
def DPT_19001.IsValid (d : DPT_19001) : Bool :=
  let tm := GoTime.Date d.Year d.Month d.DayOfMonth d.HourOfDay d.Minutes d.Seconds
  if tm.Year < 1900 || tm.Year > 2155 then false
  else if (d.Year : Int) != tm.Year then false
  else if (d.Month : Int) != tm.Month then false
  else if (d.DayOfMonth : Int) != tm.Day then false
  else if d.DayOfWeek > 7 then false
  else if d.HourOfDay > 24 then false
  -- if hour is 24, minutes and second need to be 0
  else if d.HourOfDay == 24 && (d.Minutes != 0 || d.Seconds != 0) then false
  else if d.Minutes > 59 then false
  else if d.Seconds > 59 then false
  else true

/-- Go: `func boolTOuint8(value bool) uint8`. -/
def boolTOuint8 (value : Bool) : Nat := if value then 1 else 0

/-- Go: `func unit8TObool(value uint8) bool`. -/
def unit8TObool (value : Nat) : Bool := value == 1

/-- Go: `func (d DPT_19001) Pack() []byte`. The statements `buf[i] = e` and `buf[7] |= e`
are `List.set`; all indices are inside the nine-element buffer. -/
def DPT_19001.Pack (d : DPT_19001) : List Nat :=
  let buf : List Nat := [0, 0, 0, 0, 0, 0, 0, 0, 0]
  if d.IsValid then
    let buf := buf.set 1 (u8 (u16 ((d.Year : Int) - 1900)))
    let buf := buf.set 2 (d.Month &&& 0xF)
    let buf := buf.set 3 (d.DayOfMonth &&& 0x1F)
    let buf := buf.set 4 (u8 (d.DayOfWeek <<< 5) ||| (d.HourOfDay &&& 0x1F))
    let buf := buf.set 5 (d.Minutes &&& 0x3F)
    let buf := buf.set 6 (d.Seconds &&& 0x3F)
    let buf := buf.set 7 (u8 ((boolTOuint8 d.F &&& 0x1) <<< 7))
    let buf := buf.set 7 (buf.getD 7 0 ||| u8 ((boolTOuint8 d.WD &&& 0x1) <<< 6))
    let buf := buf.set 7 (buf.getD 7 0 ||| u8 ((boolTOuint8 d.NWD &&& 0x1) <<< 5))
    let buf := buf.set 7 (buf.getD 7 0 ||| u8 ((boolTOuint8 d.NY &&& 0x1) <<< 4))
    let buf := buf.set 7 (buf.getD 7 0 ||| u8 ((boolTOuint8 d.ND &&& 0x1) <<< 3))
    let buf := buf.set 7 (buf.getD 7 0 ||| u8 ((boolTOuint8 d.NDoW &&& 0x1) <<< 2))
    let buf := buf.set 7 (buf.getD 7 0 ||| u8 ((boolTOuint8 d.NT &&& 0x1) <<< 1))
    let buf := buf.set 7 (buf.getD 7 0 ||| (boolTOuint8 d.SUTI &&& 0x1))
    let buf := buf.set 8 (u8 ((boolTOuint8 d.CLQ &&& 0x1) <<< 7))
    buf
  else buf

/-- The errors `Unpack` returns: the package variable `ErrInvalidLength` and the value
of `fmt.Errorf("payload is out of range")`. -/
inductive Error where
  | ErrInvalidLength
  | OutOfRange
deriving DecidableEq, Repr

/-- A byte slice: every element is a `uint8`. -/
def IsBytes (data : List Nat) : Prop := ∀ b ∈ data, b < 256

instance (data : List Nat) : Decidable (IsBytes data) := by
  unfold IsBytes; infer_instance

/-- Lines 66 to 81 of `Unpack`: every field of the receiver is assigned from `data`, so
the record after these lines does not depend on the record before them. `data[i]` is
`data.getD i 0`; the length test before these lines puts every index in range. -/
def DPT_19001.assign (data : List Nat) : DPT_19001 :=
  { Year := u16 (((data.getD 1 0 &&& 0xFF : Nat) : Int) + 1900)
    Month := data.getD 2 0 &&& 0xF
    DayOfMonth := data.getD 3 0 &&& 0x1F
    DayOfWeek := data.getD 4 0 >>> 5 &&& 0x07
    HourOfDay := data.getD 4 0 &&& 0x1F
    Minutes := data.getD 5 0 &&& 0x3F
    Seconds := data.getD 6 0 &&& 0x3F
    F := unit8TObool (data.getD 7 0 >>> 7 &&& 0x1)
    WD := unit8TObool (data.getD 7 0 >>> 6 &&& 0x1)
    NWD := unit8TObool (data.getD 7 0 >>> 5 &&& 0x1)
    NY := unit8TObool (data.getD 7 0 >>> 4 &&& 0x1)
    ND := unit8TObool (data.getD 7 0 >>> 3 &&& 0x1)
    NDoW := unit8TObool (data.getD 7 0 >>> 2 &&& 0x1)
    NT := unit8TObool (data.getD 7 0 >>> 1 &&& 0x1)
    SUTI := unit8TObool (data.getD 7 0 &&& 0x1)
    CLQ := unit8TObool (data.getD 8 0 >>> 7 &&& 0x1) }

/-- Go: `func (d *DPT_19001) Unpack(data []byte) error`. The first component is the
receiver after the call, the second the returned error (`none` for `nil`). -/
def DPT_19001.Unpack (d : DPT_19001) (data : List Nat) : DPT_19001 × Option Error :=
  if data.length != 9 then (d, some Error.ErrInvalidLength)
  else
    let d := DPT_19001.assign data
    if !d.IsValid then (d, some Error.OutOfRange)
    else (d, none)

/-! ## Reference definitions of the Gregorian calendar -/

/-- Leap years by the 4/100/400 rule. -/
def isLeapYear (year : Nat) : Bool :=
  (year % 4 == 0 && year % 100 != 0) || year % 400 == 0

/-- Length of month `month` of year `year` in the proleptic Gregorian calendar: 28 or 29
for February, 30 for April, June, September and November, 31 otherwise. -/
def monthLength (year month : Nat) : Nat :=
  if month = 2 then (if isLeapYear year then 29 else 28)
  else if month = 4 ∨ month = 6 ∨ month = 9 ∨ month = 11 then 30
  else 31

/-- Length of a month, given whether the year is a leap year. -/
def GoTime.monthDays (leap : Bool) (month : Int) : Int :=
  if month = 2 then (if leap then 29 else 28)
  else if month = 4 ∨ month = 6 ∨ month = 9 ∨ month = 11 then 30
  else 31

/-! ## Sample inputs and proof-side definitions -/

/-- A valid record: 29 February 2024, Thursday, 23:59:58, with five flags set. -/
def sampleValid : DPT_19001 :=
  ⟨2024, 2, 29, 4, 23, 59, 58, true, false, true, false, false, true, false, true, true⟩

/-- The end-of-day record of the specification: 29 February 2024, hour 24, minute 0,
second 0. -/
def sampleEndOfDay : DPT_19001 :=
  ⟨2024, 2, 29, 4, 24, 0, 0, false, false, false, false, false, false, false, false, false⟩

/-- The buffer of nine zero bytes. -/
def zeroBuffer : List Nat := [0, 0, 0, 0, 0, 0, 0, 0, 0]

/-- Closed form of `daysSinceEpoch`: the days from the absolute epoch to the start of the
year that lies `Y` years after the absolute zero year. -/
def GoTime.yearStart (Y : Nat) : Nat :=
  146097 * (Y / 400) + 36524 * (Y % 400 / 100) + 1461 * (Y % 100 / 4) + 365 * (Y % 4)

/-- The day within the year (from 0) that `time.Date` computes for day `D` of month `M`;
`leap` is `isLeap(year)`. -/
def GoTime.ydayOf (leap : Bool) (M D : Nat) : Nat :=
  GoTime.daysBeforeTable.getD (M - 1) 0 + (if leap && decide (M ≥ 3) then 1 else 0) + (D - 1)

/-- The record of the formatting example: 2 January 2023, Monday, 09:05:00. -/
def sampleMonday : DPT_19001 :=
  ⟨2023, 1, 2, 1, 9, 5, 0, false, false, false, false, false, false, false, false, false⟩

/-- A buffer that decodes to `sampleValid` although its byte 0 and every reserved bit are
set. -/
def reservedBuffer : List Nat := [255, 124, 242, 253, 151, 251, 250, 165, 255]

/-- The record that the wire layout assigns to a buffer, written on the bytes
themselves, independently of the masks and shifts of `Unpack`: `Year` is byte 1 plus 1900,
`Month` the low 4 bits of byte 2, `DayOfMonth` the low 5 bits of byte 3, `DayOfWeek` the
high 3 bits and `HourOfDay` the low 5 bits of byte 4, `Minutes` and `Seconds` the low 6
bits of bytes 5 and 6, the eight flags bits 7 down to 0 of byte 7, `CLQ` bit 7 of byte 8. -/
def wireRecord (data : List Nat) : DPT_19001 :=
  { Year := data.getD 1 0 + 1900
    Month := data.getD 2 0 % 16
    DayOfMonth := data.getD 3 0 % 32
    DayOfWeek := data.getD 4 0 / 32
    HourOfDay := data.getD 4 0 % 32
    Minutes := data.getD 5 0 % 64
    Seconds := data.getD 6 0 % 64
    F := (data.getD 7 0).testBit 7
    WD := (data.getD 7 0).testBit 6
    NWD := (data.getD 7 0).testBit 5
    NY := (data.getD 7 0).testBit 4
    ND := (data.getD 7 0).testBit 3
    NDoW := (data.getD 7 0).testBit 2
    NT := (data.getD 7 0).testBit 1
    SUTI := (data.getD 7 0).testBit 0
    CLQ := (data.getD 8 0).testBit 7 }

/-- A buffer whose fields are 30 February 2024, 23:59:58, weekday 4, with byte 0 and
every reserved bit set. -/
def rejectedBuffer : List Nat := [255, 124, 242, 254, 151, 251, 250, 165, 255]

/-- The instant `IsValid` builds from the numeric fields. -/
def DPT_19001.tm (d : DPT_19001) : GoTime.Time :=
  GoTime.Date d.Year d.Month d.DayOfMonth d.HourOfDay d.Minutes d.Seconds

/-! ## Formatting: `String` and the verbs `%04d`, `%02d`, `%s` of `fmt.Sprintf` -/

/-- Go: `ldigits`, the digit table of package `fmt`. -/
def ldigits : List Char := "0123456789abcdefx".toList

/-- Go: the base 10 loop of `fmtInteger` in package `fmt`, followed by the last digit:
`for u >= 10 { i--; next := u / 10; buf[i] = byte('0' + u - next*10); u = next }` and
`i--; buf[i] = digits[u]`. The buffer is written from its end; `buf` is the part written
so far. Every round divides `u` by 10, so with `fuel = u` the loop always ends by its own
test. -/
def fmtIntegerLoop : Nat → Nat → List Char → List Char
  | 0, u, buf => ldigits.getD u (Char.ofNat 48) :: buf
  | fuel + 1, u, buf =>
    if u ≥ 10 then
      let next := u / 10
      fmtIntegerLoop fuel next (Char.ofNat ((48 + u - next * 10) % 256) :: buf)
    else
      ldigits.getD u (Char.ofNat 48) :: buf

/-- Go: the zero padding loop of `fmtInteger`,
`for i > 0 && prec > len(buf)-i { i--; buf[i] = '0' }`, with `prec` the width of the verb
(flag `0`, unsigned argument). At most `prec` zeros are written. -/
def fmtZeroPad : Nat → Nat → List Char → List Char
  | 0, _, buf => buf
  | fuel + 1, prec, buf =>
    if prec > buf.length then fmtZeroPad fuel prec (Char.ofNat 48 :: buf) else buf

/-- Go: the verb `%0<wid>d` applied to an unsigned integer `u` (`%02d`, `%04d`). -/
def fmtD (wid u : Nat) : String :=
  String.mk (fmtZeroPad wid wid (fmtIntegerLoop u u []))

/-- Go: `func (d DPT_19001) String() string`. `fmt.Sprintf` writes the literal text of
the format and the formatted arguments in order; `%s` writes its string argument as it
is. -/
def DPT_19001.String (d : DPT_19001) : String :=
  let weekday := ["Monday", "Tuesday", "Wednesday", "Thursday", "Friday", "Saturday", "Sunday"]
  let timeString :=
    if 0 < d.DayOfWeek && d.DayOfWeek ≤ 7 then
      weekday.getD (u8 (d.DayOfWeek + 256 - 1)) "" ++ " " ++ fmtD 2 d.HourOfDay ++ ":" ++
        fmtD 2 d.Minutes ++ ":" ++ fmtD 2 d.Seconds
    else
      fmtD 2 d.HourOfDay ++ ":" ++ fmtD 2 d.Minutes ++ ":" ++ fmtD 2 d.Seconds
  fmtD 4 d.Year ++ "-" ++ fmtD 2 d.Month ++ "-" ++ fmtD 2 d.DayOfMonth ++ " " ++ timeString

/-! ## Reference definitions of the textual form -/

/-- The decimal numeral of `n`, left-padded with zeros to at least `N` digits. -/
def padN (N n : Nat) : String :=
  String.mk (List.replicate (N - (Nat.repr n).length) (Char.ofNat 48)) ++ Nat.repr n

/-- The weekday names, Monday first. -/
def weekdayNames : List String :=
  ["Monday", "Tuesday", "Wednesday", "Thursday", "Friday", "Saturday", "Sunday"]

/-- The weekday part of the textual form: the name and one space for `dow` from 1 to 7,
nothing otherwise. -/
def weekdayPart (dow : Nat) : String :=
  if 1 ≤ dow ∧ dow ≤ 7 then weekdayNames.getD (dow - 1) "" ++ " " else ""

/-- A record of the Go type whose year has five digits. -/
def sampleYear10000 : DPT_19001 :=
  ⟨10000, 1, 2, 0, 9, 5, 0, false, false, false, false, false, false, false, false, false⟩

/-! ## Properties of the calendar of package `time` -/

namespace GoTime

theorem tmod_eq_zero_iff (a b : Int) : a.tmod b = 0 ↔ a % b = 0 := by
  constructor
  · intro h; exact Int.emod_eq_zero_of_dvd (Int.dvd_of_tmod_eq_zero h)
  · intro h; exact Int.tmod_eq_zero_of_dvd (Int.dvd_of_emod_eq_zero h)

theorem isLeap_iff (year : Int) :
    isLeap year = true ↔ year % 4 = 0 ∧ (year % 100 ≠ 0 ∨ year % 400 = 0) := by
  simp [isLeap, tmod_eq_zero_iff]

theorem isLeap_natCast (year : Nat) : isLeap (year : Int) = isLeapYear year := by
  rw [Bool.eq_iff_iff, isLeap_iff]
  simp only [isLeapYear, Bool.or_eq_true, Bool.and_eq_true, beq_iff_eq, bne_iff_ne, ne_eq]
  omega

/-- The cycle arithmetic of `absDateYear`, step by step: the day within the year is at
most 365, and at most 364 when the resulting year is not a leap year. -/
theorem year_arith (d0 n1 d1 c n2 d2 n3 d3 q n4 d4 : Nat) (y : Int)
    (h1 : n1 = d0 / 146097) (h2 : d1 = d0 - 146097 * n1)
    (h3 : c = d1 / 36524) (h4 : n2 = c - c >>> 2) (h5 : d2 = d1 - 36524 * n2)
    (h6 : n3 = d2 / 1461) (h7 : d3 = d2 - 1461 * n3)
    (h8 : q = d3 / 365) (h9 : n4 = q - q >>> 2) (h10 : d4 = d3 - 365 * n4)
    (hy : y = ((400 * n1 + 100 * n2 + 4 * n3 + n4 : Nat) : Int) + -292277022399) :
    d4 ≤ 365 ∧ ((y % 4 ≠ 0 ∨ (y % 100 = 0 ∧ y % 400 ≠ 0)) → d4 ≤ 364) := by
  rw [Nat.shiftRight_eq_div_pow] at h4 h9
  have b1 : d1 < 146097 := by omega
  have bc : c = 0 ∨ c = 1 ∨ c = 2 ∨ c = 3 ∨ c = 4 := by omega
  have b2 : d2 < 36525 ∧ (n2 < 3 → d2 < 36524) ∧ n2 ≤ 3 := by
    rcases bc with h | h | h | h | h <;> subst h <;> omega
  have b3 : n3 ≤ 24 ∧ d3 < 1461 ∧ (n2 < 3 → n3 = 24 → d3 < 1460) := by omega
  have bq : q = 0 ∨ q = 1 ∨ q = 2 ∨ q = 3 ∨ q = 4 := by omega
  have b4 : n4 ≤ 3 ∧ d4 ≤ 365 ∧ (n4 < 3 → d4 ≤ 364) ∧ (n2 < 3 → n3 = 24 → d4 ≤ 364) := by
    rcases bq with h | h | h | h | h <;> subst h <;> omega
  refine ⟨b4.2.1, ?_⟩
  intro h
  have hn2 : n2 ≤ 3 := b2.2.2
  have hn3 : n3 ≤ 24 := b3.1
  have hn4 : n4 ≤ 3 := b4.1
  omega

theorem absDateYear_yday (d0 : Nat) :
    (absDateYear d0).2 ≤ 365 ∧
      (isLeap (((absDateYear d0).1 : Int) + absoluteZeroYear) = false →
        (absDateYear d0).2 ≤ 364) := by
  have hl := isLeap_iff (((absDateYear d0).1 : Int) + absoluteZeroYear)
  have ha := year_arith d0 _ _ _ _ _ _ _ _ _ (absDateYear d0).2
    (((absDateYear d0).1 : Int) + absoluteZeroYear) rfl rfl rfl rfl rfl rfl rfl rfl rfl rfl rfl
  refine ⟨ha.1, fun h => ha.2 ?_⟩
  rw [h] at hl
  by_contra hc
  apply Bool.false_ne_true
  rw [hl]
  omega

set_option maxRecDepth 100000 in
/-- The month stage of `absDate` on every day of a year, leap or not: the result is a
month from 1 to 12 and a day of that month. -/
theorem absDateMonthDay_fin :
    ∀ leap : Bool, ∀ yday : Fin 366, (leap = false → yday.val ≤ 364) →
      1 ≤ (absDateMonthDay leap (yday.val : Int)).1 ∧
      (absDateMonthDay leap (yday.val : Int)).1 ≤ 12 ∧
      1 ≤ (absDateMonthDay leap (yday.val : Int)).2 ∧
      (absDateMonthDay leap (yday.val : Int)).2 ≤
        monthDays leap (absDateMonthDay leap (yday.val : Int)).1 := by
  decide

theorem absDate_year_full (abs : Nat) : (absDate abs true).year = (absDate abs false).year := by
  simp [absDate]

/-- Whatever the instant, `Month()` and `Day()` name a day that exists in the year
`Year()` returns. -/
theorem Time.date_real (t : Time) :
    1 ≤ t.Month ∧ t.Month ≤ 12 ∧ 1 ≤ t.Day ∧ t.Day ≤ monthDays (isLeap t.Year) t.Month := by
  have hy := absDateYear_yday (t.abs / secondsPerDay)
  have hf := absDateMonthDay_fin
    (isLeap (((absDateYear (t.abs / secondsPerDay)).1 : Int) + absoluteZeroYear))
    ⟨(absDateYear (t.abs / secondsPerDay)).2, by omega⟩ hy.2
  simpa [Time.Month, Time.Day, Time.Year, absDate] using hf

theorem monthDays_le (leap : Bool) (month : Int) : monthDays leap month ≤ 31 := by
  unfold monthDays
  cases leap <;> split_ifs <;> simp

end GoTime

/-! ## Properties of `IsValid` -/

theorem DPT_19001.IsValid_iff (d : DPT_19001) :
    d.IsValid = true ↔
      (1900 ≤ d.tm.Year ∧ d.tm.Year ≤ 2155 ∧ (d.Year : Int) = d.tm.Year ∧
        (d.Month : Int) = d.tm.Month ∧ (d.DayOfMonth : Int) = d.tm.Day ∧
        d.DayOfWeek ≤ 7 ∧ d.HourOfDay ≤ 24 ∧
        (d.HourOfDay = 24 → d.Minutes = 0 ∧ d.Seconds = 0) ∧
        d.Minutes ≤ 59 ∧ d.Seconds ≤ 59) := by
  unfold DPT_19001.IsValid DPT_19001.tm
  dsimp only
  generalize GoTime.Date d.Year d.Month d.DayOfMonth d.HourOfDay d.Minutes d.Seconds = t
  generalize t.Year = Y
  generalize t.Month = M
  generalize t.Day = D
  simp only [Bool.or_eq_true, decide_eq_true_eq, bne_iff_ne, ne_eq, beq_iff_eq,
    Bool.and_eq_true]
  split_ifs with h1 h2 h3 h4 h5 h6 h7 h8 h9
  case neg =>
    constructor
    · intro _
      refine ⟨?_, ?_, ?_, ?_, ?_, ?_, ?_, ?_, ?_, ?_⟩ <;> omega
    · intro _; trivial
  all_goals
    constructor
    · intro h; exact h.elim
    · rintro ⟨g1, g2, g3, g4, g5, g6, g7, g8, g9, g10⟩
      exfalso
      omega

theorem GoTime.monthDays_natCast (year month : Nat) :
    GoTime.monthDays (GoTime.isLeap (year : Int)) (month : Int) = (monthLength year month : Nat) := by
  rw [GoTime.isLeap_natCast]
  unfold GoTime.monthDays monthLength
  cases isLeapYear year <;> split_ifs <;> first | rfl | omega

/-- Every field of a record that `IsValid` accepts is in its range, and the day exists in
the month. -/
theorem DPT_19001.IsValid_bounds (d : DPT_19001) (h : d.IsValid = true) :
    1900 ≤ d.Year ∧ d.Year ≤ 2155 ∧ 1 ≤ d.Month ∧ d.Month ≤ 12 ∧ 1 ≤ d.DayOfMonth ∧
      d.DayOfMonth ≤ monthLength d.Year d.Month ∧ d.DayOfMonth ≤ 31 ∧ d.DayOfWeek ≤ 7 ∧
      d.HourOfDay ≤ 24 ∧ d.Minutes ≤ 59 ∧ d.Seconds ≤ 59 ∧
      (d.HourOfDay = 24 → d.Minutes = 0 ∧ d.Seconds = 0) := by
  obtain ⟨g1, g2, g3, g4, g5, g6, g7, g8, g9, g10⟩ := (DPT_19001.IsValid_iff d).1 h
  obtain ⟨t1, t2, t3, t4⟩ := GoTime.Time.date_real d.tm
  rw [← g3, ← g4, ← g5, GoTime.monthDays_natCast] at t4
  have t5 := GoTime.monthDays_le (GoTime.isLeap d.tm.Year) d.tm.Month
  rw [← g3, ← g4, GoTime.monthDays_natCast] at t5
  refine ⟨?_, ?_, ?_, ?_, ?_, ?_, ?_, g6, g7, g9, g10, g8⟩ <;> omega

/-! ## Properties of `Pack` and `Unpack` -/

theorem and_0xFF (x : Nat) : x &&& 0xFF = x % 256 := Nat.and_pow_two_sub_one_eq_mod x 8
theorem and_0x3F (x : Nat) : x &&& 0x3F = x % 64 := Nat.and_pow_two_sub_one_eq_mod x 6
theorem and_0x1F (x : Nat) : x &&& 0x1F = x % 32 := Nat.and_pow_two_sub_one_eq_mod x 5
theorem and_0xF (x : Nat) : x &&& 0xF = x % 16 := Nat.and_pow_two_sub_one_eq_mod x 4
theorem and_0x07 (x : Nat) : x &&& 0x07 = x % 8 := Nat.and_pow_two_sub_one_eq_mod x 3
theorem and_0x1 (x : Nat) : x &&& 0x1 = x % 2 := Nat.and_pow_two_sub_one_eq_mod x 1

/-- Byte 4 of `Pack`: the shifted weekday and the hour do not overlap. -/
theorem byte4_eq (w h : Nat) (hw : w ≤ 7) (hh : h < 32) :
    u8 (w <<< 5) ||| (h &&& 0x1F) = w * 32 + h := by
  have e : u8 (w <<< 5) = 2 ^ 5 * w := by
    rw [Nat.shiftLeft_eq, u8]; omega
  rw [e, and_0x1F, Nat.mod_eq_of_lt hh, ← Nat.mul_add_lt_is_or (by omega) w]
  omega

/-- Byte 7 of `Pack` as a sum of weighted flags. -/
theorem byte7_eq : ∀ f wd nwd ny nd ndow nt suti : Bool,
    (u8 ((boolTOuint8 f &&& 0x1) <<< 7) ||| u8 ((boolTOuint8 wd &&& 0x1) <<< 6) |||
        u8 ((boolTOuint8 nwd &&& 0x1) <<< 5) ||| u8 ((boolTOuint8 ny &&& 0x1) <<< 4) |||
        u8 ((boolTOuint8 nd &&& 0x1) <<< 3) ||| u8 ((boolTOuint8 ndow &&& 0x1) <<< 2) |||
        u8 ((boolTOuint8 nt &&& 0x1) <<< 1) ||| (boolTOuint8 suti &&& 0x1)) =
      128 * boolTOuint8 f + 64 * boolTOuint8 wd + 32 * boolTOuint8 nwd + 16 * boolTOuint8 ny +
        8 * boolTOuint8 nd + 4 * boolTOuint8 ndow + 2 * boolTOuint8 nt + boolTOuint8 suti := by
  decide

theorem byte8_eq : ∀ clq : Bool,
    u8 ((boolTOuint8 clq &&& 0x1) <<< 7) = 128 * boolTOuint8 clq := by
  decide

/-- The flags read back from byte 7 and byte 8. -/
theorem flags_back : ∀ f wd nwd ny nd ndow nt suti : Bool,
    unit8TObool ((128 * boolTOuint8 f + 64 * boolTOuint8 wd + 32 * boolTOuint8 nwd +
        16 * boolTOuint8 ny + 8 * boolTOuint8 nd + 4 * boolTOuint8 ndow + 2 * boolTOuint8 nt +
        boolTOuint8 suti) >>> 7 &&& 0x1) = f ∧
    unit8TObool ((128 * boolTOuint8 f + 64 * boolTOuint8 wd + 32 * boolTOuint8 nwd +
        16 * boolTOuint8 ny + 8 * boolTOuint8 nd + 4 * boolTOuint8 ndow + 2 * boolTOuint8 nt +
        boolTOuint8 suti) >>> 6 &&& 0x1) = wd ∧
    unit8TObool ((128 * boolTOuint8 f + 64 * boolTOuint8 wd + 32 * boolTOuint8 nwd +
        16 * boolTOuint8 ny + 8 * boolTOuint8 nd + 4 * boolTOuint8 ndow + 2 * boolTOuint8 nt +
        boolTOuint8 suti) >>> 5 &&& 0x1) = nwd ∧
    unit8TObool ((128 * boolTOuint8 f + 64 * boolTOuint8 wd + 32 * boolTOuint8 nwd +
        16 * boolTOuint8 ny + 8 * boolTOuint8 nd + 4 * boolTOuint8 ndow + 2 * boolTOuint8 nt +
        boolTOuint8 suti) >>> 4 &&& 0x1) = ny ∧
    unit8TObool ((128 * boolTOuint8 f + 64 * boolTOuint8 wd + 32 * boolTOuint8 nwd +
        16 * boolTOuint8 ny + 8 * boolTOuint8 nd + 4 * boolTOuint8 ndow + 2 * boolTOuint8 nt +
        boolTOuint8 suti) >>> 3 &&& 0x1) = nd ∧
    unit8TObool ((128 * boolTOuint8 f + 64 * boolTOuint8 wd + 32 * boolTOuint8 nwd +
        16 * boolTOuint8 ny + 8 * boolTOuint8 nd + 4 * boolTOuint8 ndow + 2 * boolTOuint8 nt +
        boolTOuint8 suti) >>> 2 &&& 0x1) = ndow ∧
    unit8TObool ((128 * boolTOuint8 f + 64 * boolTOuint8 wd + 32 * boolTOuint8 nwd +
        16 * boolTOuint8 ny + 8 * boolTOuint8 nd + 4 * boolTOuint8 ndow + 2 * boolTOuint8 nt +
        boolTOuint8 suti) >>> 1 &&& 0x1) = nt ∧
    unit8TObool ((128 * boolTOuint8 f + 64 * boolTOuint8 wd + 32 * boolTOuint8 nwd +
        16 * boolTOuint8 ny + 8 * boolTOuint8 nd + 4 * boolTOuint8 ndow + 2 * boolTOuint8 nt +
        boolTOuint8 suti) &&& 0x1) = suti := by
  decide

theorem clq_back : ∀ clq : Bool, unit8TObool ((128 * boolTOuint8 clq) >>> 7 &&& 0x1) = clq := by
  decide

/-- The buffer `Pack` builds for a record that `IsValid` accepts. -/
theorem DPT_19001.Pack_of_valid (d : DPT_19001) (h : d.IsValid = true) :
    d.Pack =
      [0, d.Year - 1900, d.Month, d.DayOfMonth, d.DayOfWeek * 32 + d.HourOfDay, d.Minutes,
        d.Seconds,
        128 * boolTOuint8 d.F + 64 * boolTOuint8 d.WD + 32 * boolTOuint8 d.NWD +
          16 * boolTOuint8 d.NY + 8 * boolTOuint8 d.ND + 4 * boolTOuint8 d.NDoW +
          2 * boolTOuint8 d.NT + boolTOuint8 d.SUTI,
        128 * boolTOuint8 d.CLQ] := by
  obtain ⟨b1, b2, b3, b4, b5, b6, b7, b8, b9, b10, b11, _⟩ := d.IsValid_bounds h
  have e1 : u8 (u16 ((d.Year : Int) - 1900)) = d.Year - 1900 := by
    unfold u8 u16; omega
  have e2 : d.Month &&& 0xF = d.Month := by rw [and_0xF]; omega
  have e3 : d.DayOfMonth &&& 0x1F = d.DayOfMonth := by rw [and_0x1F]; omega
  have e4 := byte4_eq d.DayOfWeek d.HourOfDay b8 (by omega)
  have e5 : d.Minutes &&& 0x3F = d.Minutes := by rw [and_0x3F]; omega
  have e6 : d.Seconds &&& 0x3F = d.Seconds := by rw [and_0x3F]; omega
  have e7 := byte7_eq d.F d.WD d.NWD d.NY d.ND d.NDoW d.NT d.SUTI
  have e8 := byte8_eq d.CLQ
  unfold DPT_19001.Pack
  rw [if_pos h]
  simp only [List.set, List.getD, List.get?, Option.getD]
  rw [e1, e2, e3, e4, e5, e6, e7, e8]

/-- What `assign` reads back from the buffer `Pack` builds for a valid record. -/
theorem DPT_19001.assign_Pack (r : DPT_19001) (h : r.IsValid = true) :
    DPT_19001.assign r.Pack = r := by
  obtain ⟨b1, b2, b3, b4, b5, b6, b7, b8, b9, b10, b11, _⟩ := r.IsValid_bounds h
  rw [r.Pack_of_valid h]
  obtain ⟨f1, f2, f3, f4, f5, f6, f7, f8⟩ := flags_back r.F r.WD r.NWD r.NY r.ND r.NDoW r.NT r.SUTI
  have f9 := clq_back r.CLQ
  have e1 : u16 (((r.Year - 1900 &&& 0xFF : Nat) : Int) + 1900) = r.Year := by
    rw [and_0xFF]; unfold u16; omega
  have e2 : r.Month &&& 0xF = r.Month := by rw [and_0xF]; omega
  have e3 : r.DayOfMonth &&& 0x1F = r.DayOfMonth := by rw [and_0x1F]; omega
  have e4 : (r.DayOfWeek * 32 + r.HourOfDay) >>> 5 &&& 0x07 = r.DayOfWeek := by
    rw [and_0x07, Nat.shiftRight_eq_div_pow]; omega
  have e4b : (r.DayOfWeek * 32 + r.HourOfDay) &&& 0x1F = r.HourOfDay := by
    rw [and_0x1F]; omega
  have e5 : r.Minutes &&& 0x3F = r.Minutes := by rw [and_0x3F]; omega
  have e6 : r.Seconds &&& 0x3F = r.Seconds := by rw [and_0x3F]; omega
  simp only [DPT_19001.assign, List.getD, List.get?, Option.getD]
  rw [e1, e2, e3, e4, e4b, e5, e6, f1, f2, f3, f4, f5, f6, f7, f8, f9]

theorem DPT_19001.Pack_length (d : DPT_19001) : d.Pack.length = 9 := by
  unfold DPT_19001.Pack
  split <;> simp

theorem IsBytes.getD_lt (data : List Nat) (hb : IsBytes data) (i : Nat) :
    data.getD i 0 < 256 := by
  by_cases hi : i < data.length
  · rw [List.getD_eq_getElem data 0 hi]
    exact hb _ (List.getElem_mem hi)
  · rw [List.getD_eq_default data 0 (by omega)]
    omega

/-- Reading bit `k` of a byte the way `Unpack` does. -/
theorem unit8TObool_bit (b k : Nat) : unit8TObool (b >>> k &&& 0x1) = b.testBit k := by
  rw [Nat.testBit_to_div_mod, and_0x1, Nat.shiftRight_eq_div_pow, Bool.eq_iff_iff]
  simp [unit8TObool]

theorem unit8TObool_bit0 (b : Nat) : unit8TObool (b &&& 0x1) = b.testBit 0 := by
  rw [Nat.testBit_to_div_mod, and_0x1, Bool.eq_iff_iff]
  simp [unit8TObool]

/-! ## The claims -/

/-- C1. Round trip: for every record `r` that `IsValid` accepts and every prior state `d`
of the receiver, `d.Unpack(r.Pack())` returns no error and leaves the receiver equal to
`r` in all sixteen fields. -/
theorem C1_unpack_pack_roundtrip (r d : DPT_19001) (h : r.IsValid = true) :
    d.Unpack r.Pack = (r, none) := by
  unfold DPT_19001.Unpack
  simp [r.Pack_length, r.assign_Pack h, h]

/-- C1 at a concrete input: the receiver held the end-of-day record before the call. -/
theorem C1_unpack_pack_roundtrip_witness :
    sampleValid.IsValid = true ∧ sampleEndOfDay.Unpack sampleValid.Pack = (sampleValid, none) :=
  ⟨by decide, C1_unpack_pack_roundtrip sampleValid sampleEndOfDay (by decide)⟩

/-- C2. On the end-of-day record of the specification (29 February 2024, weekday 4, hour
24, minute 0, second 0) `time.Date` rolls the instant forward to 1 March 2024, the month
and day comparisons of `IsValid` fail, and `IsValid` returns false. -/
theorem C2_end_of_day_rejected :
    sampleEndOfDay.InType ∧ sampleEndOfDay.tm.Year = 2024 ∧ sampleEndOfDay.tm.Month = 3 ∧
      sampleEndOfDay.tm.Day = 1 ∧ sampleEndOfDay.IsValid = false := by
  decide

/-- C4. For every record that `IsValid` rejects, `Pack` returns the buffer of nine zero
bytes. -/
theorem C4_pack_invalid_zero (r : DPT_19001) (h : r.IsValid = false) :
    r.Pack = [0, 0, 0, 0, 0, 0, 0, 0, 0] := by
  unfold DPT_19001.Pack
  simp [h]

/-- C4 at the end-of-day record, which `IsValid` rejects. -/
theorem C4_pack_invalid_zero_witness :
    sampleEndOfDay.IsValid = false ∧ sampleEndOfDay.Pack = [0, 0, 0, 0, 0, 0, 0, 0, 0] :=
  ⟨by decide, C4_pack_invalid_zero sampleEndOfDay (by decide)⟩

/-- C6. For every byte sequence whose length is not 9, `Unpack` returns
`ErrInvalidLength`, whatever the bytes are, and does not touch the receiver. -/
theorem C6_unpack_invalid_length (d : DPT_19001) (data : List Nat) (hlen : data.length ≠ 9) :
    d.Unpack data = (d, some Error.ErrInvalidLength) := by
  unfold DPT_19001.Unpack
  simp [hlen]

/-- C6 at lengths 0, 8 and 10. -/
theorem C6_unpack_invalid_length_witness :
    (([] : List Nat).length ≠ 9 ∧
        sampleValid.Unpack [] = (sampleValid, some Error.ErrInvalidLength)) ∧
      ([0, 124, 2, 29, 151, 59, 58, 165].length ≠ 9 ∧
        sampleValid.Unpack [0, 124, 2, 29, 151, 59, 58, 165] =
          (sampleValid, some Error.ErrInvalidLength)) ∧
      ([0, 124, 2, 29, 151, 59, 58, 165, 128, 0].length ≠ 9 ∧
        sampleValid.Unpack [0, 124, 2, 29, 151, 59, 58, 165, 128, 0] =
          (sampleValid, some Error.ErrInvalidLength)) :=
  ⟨⟨by decide, C6_unpack_invalid_length sampleValid [] (by decide)⟩,
   ⟨by decide, C6_unpack_invalid_length sampleValid _ (by decide)⟩,
   ⟨by decide, C6_unpack_invalid_length sampleValid _ (by decide)⟩⟩

/-- C7. Wire layout of `Pack`: for every valid record the buffer has length 9 and holds
0, `Year - 1900`, `Month`, `DayOfMonth`, `DayOfWeek*32 + HourOfDay`, `Minutes`, `Seconds`,
the eight flags weighted 128, 64, 32, 16, 8, 4, 2, 1 and `128*CLQ`; the reserved bits (bits
7:4 of byte 2, 7:5 of byte 3, 7:6 of bytes 5 and 6, 6:0 of byte 8) are zero. -/
theorem C7_pack_layout (r : DPT_19001) (h : r.IsValid = true) :
    r.Pack.length = 9 ∧
      r.Pack =
        [0, r.Year - 1900, r.Month, r.DayOfMonth, r.DayOfWeek * 32 + r.HourOfDay, r.Minutes,
          r.Seconds,
          128 * boolTOuint8 r.F + 64 * boolTOuint8 r.WD + 32 * boolTOuint8 r.NWD +
            16 * boolTOuint8 r.NY + 8 * boolTOuint8 r.ND + 4 * boolTOuint8 r.NDoW +
            2 * boolTOuint8 r.NT + boolTOuint8 r.SUTI,
          128 * boolTOuint8 r.CLQ] ∧
      1900 ≤ r.Year ∧ r.Year - 1900 < 256 ∧
      r.Pack.getD 2 0 / 16 = 0 ∧ r.Pack.getD 3 0 / 32 = 0 ∧ r.Pack.getD 5 0 / 64 = 0 ∧
      r.Pack.getD 6 0 / 64 = 0 ∧ r.Pack.getD 8 0 % 128 = 0 := by
  obtain ⟨b1, b2, b3, b4, b5, b6, b7, b8, b9, b10, b11, _⟩ := r.IsValid_bounds h
  refine ⟨r.Pack_length, r.Pack_of_valid h, b1, by omega, ?_⟩
  rw [r.Pack_of_valid h]
  simp only [List.getD, List.get?, Option.getD]
  refine ⟨?_, ?_, ?_, ?_, ?_⟩ <;> omega

/-- C7 at a valid record with flags set. -/
theorem C7_pack_layout_witness :
    sampleValid.IsValid = true ∧ sampleValid.Pack = [0, 124, 2, 29, 151, 59, 58, 165, 128] :=
  ⟨by decide, (C7_pack_layout sampleValid (by decide)).2.1⟩

/-- C8. Wire layout of `Unpack`: for every 9-byte buffer on which `Unpack` returns no
error, the receiver holds `Year = b[1] + 1900`, `Month = b[2] mod 16`,
`DayOfMonth = b[3] mod 32`, `DayOfWeek = b[4] div 32`, `HourOfDay = b[4] mod 32`,
`Minutes = b[5] mod 64`, `Seconds = b[6] mod 64`, the flags `F`, `WD`, `NWD`, `NY`, `ND`,
`NDoW`, `NT`, `SUTI` equal to bits 7 down to 0 of `b[7]`, and `CLQ` equal to bit 7 of
`b[8]`. -/
theorem C8_unpack_layout (d : DPT_19001) (data : List Nat) (hlen : data.length = 9)
    (hb : IsBytes data) (_hok : (d.Unpack data).2 = none) :
    (d.Unpack data).1.Year = data.getD 1 0 + 1900 ∧
      (d.Unpack data).1.Month = data.getD 2 0 % 16 ∧
      (d.Unpack data).1.DayOfMonth = data.getD 3 0 % 32 ∧
      (d.Unpack data).1.DayOfWeek = data.getD 4 0 / 32 ∧
      (d.Unpack data).1.HourOfDay = data.getD 4 0 % 32 ∧
      (d.Unpack data).1.Minutes = data.getD 5 0 % 64 ∧
      (d.Unpack data).1.Seconds = data.getD 6 0 % 64 ∧
      (d.Unpack data).1.F = (data.getD 7 0).testBit 7 ∧
      (d.Unpack data).1.WD = (data.getD 7 0).testBit 6 ∧
      (d.Unpack data).1.NWD = (data.getD 7 0).testBit 5 ∧
      (d.Unpack data).1.NY = (data.getD 7 0).testBit 4 ∧
      (d.Unpack data).1.ND = (data.getD 7 0).testBit 3 ∧
      (d.Unpack data).1.NDoW = (data.getD 7 0).testBit 2 ∧
      (d.Unpack data).1.NT = (data.getD 7 0).testBit 1 ∧
      (d.Unpack data).1.SUTI = (data.getD 7 0).testBit 0 ∧
      (d.Unpack data).1.CLQ = (data.getD 8 0).testBit 7 := by
  have h1 := hb.getD_lt data 1
  have h4 := hb.getD_lt data 4
  have hu : (d.Unpack data).1 = DPT_19001.assign data := by
    unfold DPT_19001.Unpack
    cases hv : (DPT_19001.assign data).IsValid <;> simp [hlen, hv]
  rw [hu]
  unfold DPT_19001.assign
  dsimp only
  refine ⟨?_, and_0xF _, and_0x1F _, ?_, and_0x1F _, and_0x3F _, and_0x3F _,
    unit8TObool_bit _ 7, unit8TObool_bit _ 6, unit8TObool_bit _ 5, unit8TObool_bit _ 4,
    unit8TObool_bit _ 3, unit8TObool_bit _ 2, unit8TObool_bit _ 1, unit8TObool_bit0 _,
    unit8TObool_bit _ 7⟩
  · rw [and_0xFF]; unfold u16; omega
  · rw [and_0x07, Nat.shiftRight_eq_div_pow]; omega

/-- C8 at a buffer whose byte 0 and reserved bits are set. -/
theorem C8_unpack_layout_witness :
    [255, 124, 242, 253, 151, 251, 250, 165, 255].length = 9 ∧
      IsBytes [255, 124, 242, 253, 151, 251, 250, 165, 255] ∧
      (sampleEndOfDay.Unpack [255, 124, 242, 253, 151, 251, 250, 165, 255]).2 = none ∧
      (sampleEndOfDay.Unpack [255, 124, 242, 253, 151, 251, 250, 165, 255]).1.Year =
        124 + 1900 :=
  ⟨by decide, by decide, by decide,
   (C8_unpack_layout sampleEndOfDay [255, 124, 242, 253, 151, 251, 250, 165, 255]
      (by decide) (by decide) (by decide)).1⟩

/-- C9. `IsValid` rejects every out-of-range field: a record it accepts has
`1900 <= Year <= 2155`, `1 <= Month <= 12`, `1 <= DayOfMonth <= 31`, `DayOfWeek <= 7`,
`HourOfDay <= 24`, `Minutes <= 59`, `Seconds <= 59`, and `HourOfDay = 24` only with
`Minutes = 0` and `Seconds = 0`. -/
theorem C9_valid_fields_in_range (r : DPT_19001) (h : r.IsValid = true) :
    1900 ≤ r.Year ∧ r.Year ≤ 2155 ∧ 1 ≤ r.Month ∧ r.Month ≤ 12 ∧ 1 ≤ r.DayOfMonth ∧
      r.DayOfMonth ≤ 31 ∧ r.DayOfWeek ≤ 7 ∧ r.HourOfDay ≤ 24 ∧ r.Minutes ≤ 59 ∧
      r.Seconds ≤ 59 ∧ (r.HourOfDay = 24 → r.Minutes = 0 ∧ r.Seconds = 0) := by
  obtain ⟨b1, b2, b3, b4, b5, _, b7, b8, b9, b10, b11, b12⟩ := r.IsValid_bounds h
  exact ⟨b1, b2, b3, b4, b5, b7, b8, b9, b10, b11, b12⟩

/-- C9 at a valid record. -/
theorem C9_valid_fields_in_range_witness :
    sampleValid.IsValid = true ∧
      (1900 ≤ sampleValid.Year ∧ sampleValid.Year ≤ 2155 ∧ 1 ≤ sampleValid.Month ∧
        sampleValid.Month ≤ 12 ∧ 1 ≤ sampleValid.DayOfMonth ∧ sampleValid.DayOfMonth ≤ 31 ∧
        sampleValid.DayOfWeek ≤ 7 ∧ sampleValid.HourOfDay ≤ 24 ∧ sampleValid.Minutes ≤ 59 ∧
        sampleValid.Seconds ≤ 59 ∧
        (sampleValid.HourOfDay = 24 → sampleValid.Minutes = 0 ∧ sampleValid.Seconds = 0)) :=
  ⟨by decide, C9_valid_fields_in_range sampleValid (by decide)⟩

/-- C10. `IsValid` rejects impossible calendar dates: in a record it accepts,
`DayOfMonth` is at most the length of month `Month` in year `Year` of the proleptic
Gregorian calendar (28 or 29 for February by the 4/100/400 rule, 30 for April, June,
September and November, 31 otherwise). -/
theorem C10_valid_day_in_month (r : DPT_19001) (h : r.IsValid = true) :
    r.DayOfMonth ≤ monthLength r.Year r.Month :=
  (r.IsValid_bounds h).2.2.2.2.2.1

/-- C10 at 29 February 2024. -/
theorem C10_valid_day_in_month_witness :
    sampleValid.IsValid = true ∧
      sampleValid.DayOfMonth ≤ monthLength sampleValid.Year sampleValid.Month :=
  ⟨by decide, C10_valid_day_in_month sampleValid (by decide)⟩

/-! ## The calendar round trip -/

namespace GoTime

/-- The cycle cutting of `absDateYear` on `146097 a + 36524 b + 1461 g + 365 e + k`
returns the cycle counts `a`, `b`, `g`, `e` and the remainder `k`. -/
theorem cycle_inv (a b g e k d0 n1 d1 c n2 d2 n3 d3 q n4 d4 : Nat)
    (hb : b ≤ 3) (hg : g ≤ 24) (he : e ≤ 3)
    (hk : k ≤ 364 ∨ (k = 365 ∧ e = 3 ∧ (g ≠ 24 ∨ b = 3)))
    (hd0 : d0 = 146097 * a + 36524 * b + 1461 * g + 365 * e + k)
    (h1 : n1 = d0 / 146097) (h2 : d1 = d0 - 146097 * n1)
    (h3 : c = d1 / 36524) (h4 : n2 = c - c >>> 2) (h5 : d2 = d1 - 36524 * n2)
    (h6 : n3 = d2 / 1461) (h7 : d3 = d2 - 1461 * n3)
    (h8 : q = d3 / 365) (h9 : n4 = q - q >>> 2) (h10 : d4 = d3 - 365 * n4) :
    n1 = a ∧ n2 = b ∧ n3 = g ∧ n4 = e ∧ d4 = k := by
  rw [Nat.shiftRight_eq_div_pow] at h4 h9
  have r3 : 365 * e + k ≤ 1460 := by omega
  have r2 : 1461 * g + 365 * e + k ≤ 36524 ∧ (b < 3 → 1461 * g + 365 * e + k ≤ 36523) := by
    omega
  have r1 : 36524 * b + 1461 * g + 365 * e + k ≤ 146096 := by omega
  have s1 : n1 = a ∧ d1 = 36524 * b + 1461 * g + 365 * e + k := by omega
  obtain ⟨s1a, s1b⟩ := s1
  have s2 : n2 = b ∧ d2 = 1461 * g + 365 * e + k := by
    have hc : c = b ∨ (c = 4 ∧ b = 3) := by omega
    rcases hc with hc | ⟨hc, hb3⟩
    · have : c / 4 = 0 := by omega
      omega
    · have : c / 4 = 1 := by omega
      omega
  obtain ⟨s2a, s2b⟩ := s2
  have s3 : n3 = g ∧ d3 = 365 * e + k := by omega
  obtain ⟨s3a, s3b⟩ := s3
  have s4 : n4 = e ∧ d4 = k := by
    have hq : q = e ∨ (q = 4 ∧ e = 3) := by omega
    rcases hq with hq | ⟨hq, he3⟩
    · have : q / 4 = 0 := by omega
      omega
    · have : q / 4 = 1 := by omega
      omega
  exact ⟨s1a, s2a, s3a, s4.1, s4.2⟩


theorem norm_of_lt (hi lo base : Int) (h0 : 0 ≤ lo) (h1 : lo < base) :
    norm hi lo base = (hi, lo) := by
  unfold norm
  simp only [not_lt.mpr h0, if_false, ge_iff_le, not_le.mpr h1]

theorem norm_24 (hi : Int) : norm hi 24 24 = (hi + 1, 0) := by
  unfold norm
  have e : (24 : Int).tdiv 24 = 1 := by decide
  simp [e]

/-- The sums of `daysSinceEpoch`, step by step, without wrapping. -/
theorem dse_arith (Y n1 y1 d1 n2 y2 d2 n3 y3 d3 d4 : Nat) (hY : Y ≤ 300000000000)
    (h1 : n1 = Y / 400) (h2 : y1 = Y - 400 * n1)
    (h3 : d1 = 146097 * n1 % 18446744073709551616)
    (h4 : n2 = y1 / 100) (h5 : y2 = y1 - 100 * n2)
    (h6 : d2 = (d1 + 36524 * n2) % 18446744073709551616)
    (h7 : n3 = y2 / 4) (h8 : y3 = y2 - 4 * n3)
    (h9 : d3 = (d2 + 1461 * n3) % 18446744073709551616)
    (h10 : d4 = (d3 + 365 * y3) % 18446744073709551616) :
    d4 = 146097 * (Y / 400) + 36524 * (Y % 400 / 100) + 1461 * (Y % 100 / 4) + 365 * (Y % 4) := by
  have a1 : n1 ≤ 750000000 := by omega
  have a2 : d1 = 146097 * n1 := by omega
  have a3 : y1 = Y % 400 := by omega
  have a4 : n2 = Y % 400 / 100 ∧ n2 ≤ 3 := by omega
  have a5 : d2 = d1 + 36524 * n2 := by omega
  have a6 : y2 = Y % 100 := by omega
  have a7 : n3 = Y % 100 / 4 ∧ n3 ≤ 24 := by omega
  have a8 : d3 = d2 + 1461 * n3 := by omega
  have a9 : y3 = Y % 4 := by omega
  have a10 : d4 = d3 + 365 * y3 := by omega
  rw [a10, a8, a5, a2, a9, a7.1, a4.1, h1]

/-- In the years the codec can meet, `daysSinceEpoch` does not wrap and equals its closed
form. -/
theorem daysSinceEpoch_eq (y : Nat) (hy : y ≤ 100000) :
    daysSinceEpoch (y : Int) = yearStart (y + 292277022399) := by
  have hu : u64 ((y : Int) - absoluteZeroYear) = y + 292277022399 := by
    unfold u64 absoluteZeroYear; omega
  have key := dse_arith (y + 292277022399) _ _ _ _ _ _ _ _ _
    (daysSinceEpoch (y : Int)) (by omega) rfl rfl rfl rfl rfl rfl rfl rfl rfl
    (by unfold daysSinceEpoch; rw [hu]; rfl)
  rw [key]; rfl

theorem absDateYear_yearStart (Y k : Nat)
    (hk : k ≤ 364 ∨ (k = 365 ∧ isLeap ((Y : Int) + absoluteZeroYear) = true)) :
    absDateYear (yearStart Y + k) = (Y, k) := by
  have hb : Y % 400 / 100 ≤ 3 := by omega
  have hg : Y % 100 / 4 ≤ 24 := by omega
  have he : Y % 4 ≤ 3 := by omega
  have hY : Y = 400 * (Y / 400) + 100 * (Y % 400 / 100) + 4 * (Y % 100 / 4) + Y % 4 := by omega
  have hk2 : k ≤ 364 ∨ (k = 365 ∧ Y % 4 = 3 ∧ (Y % 100 / 4 ≠ 24 ∨ Y % 400 / 100 = 3)) := by
    rcases hk with hk | ⟨hk, hl⟩
    · exact Or.inl hk
    · rw [isLeap_iff] at hl
      unfold absoluteZeroYear at hl
      obtain ⟨h4, hr⟩ := hl
      refine Or.inr ⟨hk, by omega, ?_⟩
      rcases hr with hr | hr
      · left; omega
      · right; omega
  obtain ⟨k1, k2, k3, k4, k5⟩ := cycle_inv (Y / 400) (Y % 400 / 100) (Y % 100 / 4) (Y % 4) k
    (yearStart Y + k) _ _ _ _ _ _ _ _ _ (absDateYear (yearStart Y + k)).2
    hb hg he hk2 rfl rfl rfl rfl rfl rfl rfl rfl rfl rfl rfl
  refine Prod.ext ?_ k5
  have e1 : (absDateYear (yearStart Y + k)).1 =
      400 * ((yearStart Y + k) / 146097) + 100 * (Y % 400 / 100) + 4 * (Y % 100 / 4) + Y % 4 := by
    rw [← k2, ← k3, ← k4]; rfl
  rw [e1, k1]
  exact hY.symm


/-- The start of the next year is one year length later. -/
theorem yearStart_succ (Y : Nat) :
    yearStart (Y + 1) =
      yearStart Y + (if isLeap ((Y : Int) + absoluteZeroYear) = true then 366 else 365) := by
  have hl := isLeap_iff ((Y : Int) + absoluteZeroYear)
  unfold yearStart
  have c4 : (Y % 4 = 3 ∧ (Y + 1) % 4 = 0) ∨ (Y % 4 < 3 ∧ (Y + 1) % 4 = Y % 4 + 1) := by omega
  have c100 : (Y % 100 = 99 ∧ (Y + 1) % 100 = 0) ∨
      (Y % 100 < 99 ∧ (Y + 1) % 100 = Y % 100 + 1) := by omega
  have c400 : (Y % 400 = 399 ∧ (Y + 1) % 400 = 0 ∧ (Y + 1) / 400 = Y / 400 + 1) ∨
      (Y % 400 < 399 ∧ (Y + 1) % 400 = Y % 400 + 1 ∧ (Y + 1) / 400 = Y / 400) := by omega
  split_ifs with h
  · rw [hl] at h
    unfold absoluteZeroYear at h
    omega
  · rw [hl] at h
    unfold absoluteZeroYear at h
    omega

set_option maxRecDepth 100000 in
/-- Every existing day of a year, leap or not, lies inside the year. -/
theorem ydayOf_fin :
    ∀ leap : Bool, ∀ m : Fin 13, ∀ d : Fin 32, 1 ≤ m.val → 1 ≤ d.val →
      (d.val : Int) ≤ monthDays leap (m.val : Int) →
      (ydayOf leap m.val d.val ≤ 364 ∨ (ydayOf leap m.val d.val = 365 ∧ leap = true)) := by
  decide

set_option maxRecDepth 100000 in
/-- Every existing day of a year, leap or not: `absDateMonthDay` returns the month and
day that `ydayOf` was computed from. -/
theorem monthDay_fin :
    ∀ leap : Bool, ∀ m : Fin 13, ∀ d : Fin 32, 1 ≤ m.val → 1 ≤ d.val →
      (d.val : Int) ≤ monthDays leap (m.val : Int) →
      absDateMonthDay leap (ydayOf leap m.val d.val : Nat) = ((m.val : Int), (d.val : Int)) := by
  decide

set_option maxRecDepth 100000 in
/-- The day after an existing day: either it is the first day of the next year and the
day was 31 December, or it lies inside the year and `absDateMonthDay` returns a different
day of the month for it. -/
theorem nextDay_fin :
    ∀ leap : Bool, ∀ m : Fin 13, ∀ d : Fin 32, 1 ≤ m.val → 1 ≤ d.val →
      (d.val : Int) ≤ monthDays leap (m.val : Int) →
      (ydayOf leap m.val d.val + 1 = (if leap = true then 366 else 365) ∧ d.val = 31) ∨
        ((ydayOf leap m.val d.val + 1 ≤ 364 ∨
            (ydayOf leap m.val d.val + 1 = 365 ∧ leap = true)) ∧
          (absDateMonthDay leap ((ydayOf leap m.val d.val + 1 : Nat) : Int)).2 ≠
            (d.val : Int)) := by
  decide

theorem absDateMonthDay_zero : ∀ leap : Bool, absDateMonthDay leap ((0 : Nat) : Int) = (1, 1) := by
  decide


theorem u64_natCast (n : Nat) (h : n < 18446744073709551616) : u64 (n : Int) = n := by
  unfold u64; omega

theorem w64_of_lt (n : Nat) (h : n < 18446744073709551616) : w64 n = n := by
  unfold w64; omega

theorem yearStart_le (Y : Nat) : yearStart Y ≤ 366 * Y := by
  unfold yearStart; omega

theorem daysBeforeTable_le (i : Nat) (hi : i ≤ 11) : daysBeforeTable.getD i 0 ≤ 334 := by
  interval_cases i <;> decide

/-- The day number that `time.Date` computes from fields in their ranges: nothing wraps,
and hour 24 moves the instant to the next day. -/
theorem Date_abs_div (Y M D h mi s : Nat) (hY : Y ≤ 100000) (hM1 : 1 ≤ M) (hM2 : M ≤ 12)
    (hD1 : 1 ≤ D) (hD2 : D ≤ 31) (hh : h ≤ 24) (hmi : mi ≤ 59) (hs : s ≤ 59) :
    (Date Y M D h mi s).abs / secondsPerDay =
      yearStart (Y + 292277022399) + ydayOf (isLeap (Y : Int)) M D + h / 24 := by
  have n1 : norm (Y : Int) ((M : Int) - 1) 12 = ((Y : Int), (M : Int) - 1) :=
    norm_of_lt _ _ _ (by omega) (by omega)
  have n2 : norm (s : Int) 0 1000000000 = ((s : Int), 0) := norm_of_lt _ _ _ (by omega) (by omega)
  have n3 : norm (mi : Int) (s : Int) 60 = ((mi : Int), (s : Int)) :=
    norm_of_lt _ _ _ (by omega) (by omega)
  have n4 : norm (h : Int) (mi : Int) 60 = ((h : Int), (mi : Int)) :=
    norm_of_lt _ _ _ (by omega) (by omega)
  have n5 : norm (D : Int) (h : Int) 24 = ((D : Int) + ((h / 24 : Nat) : Int), ((h % 24 : Nat) : Int)) := by
    rcases Nat.lt_or_ge h 24 with h24 | h24
    · have e1 : h / 24 = 0 := by omega
      have e2 : h % 24 = h := by omega
      rw [e1, e2, norm_of_lt _ _ _ (by omega) (by omega)]
      simp
    · have e : h = 24 := by omega
      subst e
      have e3 := norm_24 (D : Int)
      simpa using e3
  have hT := daysBeforeTable_le (M - 1) (by omega)
  have hA := yearStart_le (Y + 292277022399)
  have hdb : daysBefore ((M : Int) - 1 + 1 - 1) = ((daysBeforeTable.getD (M - 1) 0 : Nat) : Int) := by
    unfold daysBefore
    have : ((M : Int) - 1 + 1 - 1).toNat = M - 1 := by omega
    rw [this]
  have hge : decide ((M : Int) - 1 + 1 ≥ 3) = decide (M ≥ 3) := by
    rw [decide_eq_decide]; omega
  unfold Date
  simp only [n1, n2, n3, n4, n5, hdb, hge, daysSinceEpoch_eq Y hY]
  unfold ydayOf
  generalize yearStart (Y + 292277022399) = A at hA ⊢
  generalize daysBeforeTable.getD (M - 1) 0 = T at hT ⊢
  have hq : h / 24 ≤ 1 := by omega
  generalize h / 24 = q at hq ⊢
  have hr : h % 24 ≤ 23 := by omega
  generalize h % 24 = r at hr ⊢
  have e1 : u64 (T : Int) = T := u64_natCast T (by omega)
  have e2 : w64 (A + T) = A + T := w64_of_lt _ (by omega)
  have e3 : w64 (A + T + 1) = A + T + 1 := w64_of_lt _ (by omega)
  have e4 : u64 ((D : Int) + (q : Int) - 1) = D - 1 + q := by
    have : (D : Int) + (q : Int) - 1 = ((D - 1 + q : Nat) : Int) := by omega
    rw [this]; exact u64_natCast _ (by omega)
  have e5 : u64 ((r : Int) * (secondsPerHour : Int) + (mi : Int) * (secondsPerMinute : Int) +
      (s : Int)) = r * 3600 + mi * 60 + s := by
    have : (r : Int) * (secondsPerHour : Int) + (mi : Int) * (secondsPerMinute : Int) +
        (s : Int) = ((r * 3600 + mi * 60 + s : Nat) : Int) := by
      unfold secondsPerHour secondsPerMinute; push_cast; ring
    rw [this]; exact u64_natCast _ (by omega)
  rw [e1, e2, e3, e5]
  have fin : ∀ d3 : Nat, d3 ≤ A + 400 →
      w64 (w64 (w64 (d3 + u64 ((D : Int) + (q : Int) - 1)) * secondsPerDay) +
        (r * 3600 + mi * 60 + s)) / secondsPerDay = d3 + (D - 1) + q := by
    intro d3 hd3
    have f1 : w64 (d3 + (D - 1 + q)) = d3 + (D - 1 + q) := w64_of_lt _ (by omega)
    have f2 : w64 ((d3 + (D - 1 + q)) * 86400) = (d3 + (D - 1 + q)) * 86400 :=
      w64_of_lt _ (by omega)
    have f3 : w64 ((d3 + (D - 1 + q)) * 86400 + (r * 3600 + mi * 60 + s)) =
        (d3 + (D - 1 + q)) * 86400 + (r * 3600 + mi * 60 + s) := w64_of_lt _ (by omega)
    rw [e4, f1]
    show w64 (w64 ((d3 + (D - 1 + q)) * 86400) + (r * 3600 + mi * 60 + s)) / 86400 = _
    rw [f2, f3]
    omega
  split_ifs with hc
  · rw [fin _ (by omega)]; omega
  · rw [fin _ (by omega)]; omega


/-- What `absDate` returns on day `k` of year `Y`. -/
theorem absDate_yearStart (abs Y k : Nat)
    (habs : abs / secondsPerDay = yearStart (Y + 292277022399) + k)
    (hk : k ≤ 364 ∨ (k = 365 ∧ isLeap (Y : Int) = true)) :
    (absDate abs false).year = Y ∧
      (absDate abs true).month = (absDateMonthDay (isLeap (Y : Int)) (k : Nat)).1 ∧
      (absDate abs true).day = (absDateMonthDay (isLeap (Y : Int)) (k : Nat)).2 := by
  have hc : ((Y + 292277022399 : Nat) : Int) + absoluteZeroYear = (Y : Int) := by
    unfold absoluteZeroYear; omega
  have hy := absDateYear_yearStart (Y + 292277022399) k (by rw [hc]; exact hk)
  unfold absDate
  simp only [habs, hy, hc, Bool.not_true, Bool.not_false, Bool.false_eq_true, if_false, if_true]
  exact ⟨trivial, trivial, trivial⟩

/-- A date that exists, with a time of day below 24:00:00, comes back from `time.Date`
unchanged. -/
theorem Date_roundtrip (Y M D h mi s : Nat) (hY : Y ≤ 100000) (hM1 : 1 ≤ M) (hM2 : M ≤ 12)
    (hD1 : 1 ≤ D) (hD2 : D ≤ monthLength Y M) (hh : h ≤ 23) (hmi : mi ≤ 59) (hs : s ≤ 59) :
    (Date Y M D h mi s).Year = Y ∧ (Date Y M D h mi s).Month = M ∧
      (Date Y M D h mi s).Day = D := by
  have hml : monthDays (isLeap (Y : Int)) (M : Int) = (monthLength Y M : Nat) :=
    monthDays_natCast Y M
  have h31 : D ≤ 31 := by
    have := monthDays_le (isLeap (Y : Int)) (M : Int)
    omega
  have hD : ((D : Nat) : Int) ≤ monthDays (isLeap (Y : Int)) (M : Int) := by omega
  have hk := ydayOf_fin (isLeap (Y : Int)) ⟨M, by omega⟩ ⟨D, by omega⟩ hM1 hD1 hD
  have hmd := monthDay_fin (isLeap (Y : Int)) ⟨M, by omega⟩ ⟨D, by omega⟩ hM1 hD1 hD
  have habs := Date_abs_div Y M D h mi s hY hM1 hM2 hD1 h31 (by omega) hmi hs
  have h0 : h / 24 = 0 := by omega
  rw [h0, Nat.add_zero] at habs
  obtain ⟨a1, a2, a3⟩ := absDate_yearStart _ Y _ habs hk
  simp only at hmd
  unfold Time.Year Time.Month Time.Day
  rw [a1, a2, a3, hmd]
  exact ⟨rfl, rfl, rfl⟩

/-- With hour 24, `time.Date` returns the day after the date it was given, and the day of
the month it reports differs from the one passed in. -/
theorem Date_hour24 (Y M D mi s : Nat) (hY : Y ≤ 100000) (hM1 : 1 ≤ M) (hM2 : M ≤ 12)
    (hD1 : 1 ≤ D) (hD2 : D ≤ monthLength Y M) (hmi : mi ≤ 59) (hs : s ≤ 59) :
    (Date Y M D (24 : Nat) mi s).Day ≠ D := by
  have hml : monthDays (isLeap (Y : Int)) (M : Int) = (monthLength Y M : Nat) :=
    monthDays_natCast Y M
  have h31 : D ≤ 31 := by
    have := monthDays_le (isLeap (Y : Int)) (M : Int)
    omega
  have hD : ((D : Nat) : Int) ≤ monthDays (isLeap (Y : Int)) (M : Int) := by omega
  have hnx := nextDay_fin (isLeap (Y : Int)) ⟨M, by omega⟩ ⟨D, by omega⟩ hM1 hD1 hD
  have habs := Date_abs_div Y M D 24 mi s hY hM1 hM2 hD1 h31 (by omega) hmi hs
  simp only at hnx
  intro g3
  unfold Time.Day at g3
  rcases hnx with ⟨hlast, hd31⟩ | ⟨hin, hne⟩
  · have hs1 := yearStart_succ (Y + 292277022399)
    have hc : ((Y + 292277022399 : Nat) : Int) + absoluteZeroYear = (Y : Int) := by
      unfold absoluteZeroYear; omega
    rw [hc] at hs1
    have habs2 : (Date Y M D (24 : Nat) mi s).abs / secondsPerDay =
        yearStart (Y + 1 + 292277022399) + 0 := by
      rw [habs]
      have : Y + 1 + 292277022399 = Y + 292277022399 + 1 := by omega
      rw [this, hs1]
      omega
    obtain ⟨_, _, a3⟩ := absDate_yearStart _ (Y + 1) 0 habs2 (Or.inl (by omega))
    rw [a3, absDateMonthDay_zero] at g3
    simp only at g3
    omega
  · have habs2 : (Date Y M D (24 : Nat) mi s).abs / secondsPerDay =
        yearStart (Y + 292277022399) + (ydayOf (isLeap (Y : Int)) M D + 1) := by
      rw [habs]; omega
    obtain ⟨_, _, a3⟩ := absDate_yearStart _ Y _ habs2 hin
    rw [a3] at g3
    exact hne g3

end GoTime

/-! ## Further properties of the codec -/

theorem DPT_19001.Pack_of_invalid (r : DPT_19001) (h : r.IsValid = false) :
    r.Pack = zeroBuffer := by
  unfold DPT_19001.Pack zeroBuffer
  simp [h]

theorem DPT_19001.Unpack_of_invalid (d : DPT_19001) (data : List Nat) (hlen : data.length = 9)
    (hbad : (DPT_19001.assign data).IsValid = false) :
    d.Unpack data = (DPT_19001.assign data, some Error.OutOfRange) := by
  unfold DPT_19001.Unpack
  simp [hlen, hbad]

theorem DPT_19001.Unpack_of_valid (d : DPT_19001) (data : List Nat) (hlen : data.length = 9)
    (hv : (DPT_19001.assign data).IsValid = true) :
    d.Unpack data = (DPT_19001.assign data, none) := by
  unfold DPT_19001.Unpack
  simp [hlen, hv]

theorem DPT_19001.Unpack_fst (d : DPT_19001) (data : List Nat) (hlen : data.length = 9) :
    (d.Unpack data).1 = DPT_19001.assign data := by
  unfold DPT_19001.Unpack
  cases hv : (DPT_19001.assign data).IsValid <;> simp [hlen, hv]

theorem DPT_19001.Unpack_ok (d : DPT_19001) (data : List Nat) (hlen : data.length = 9)
    (hok : (d.Unpack data).2 = none) : (DPT_19001.assign data).IsValid = true := by
  unfold DPT_19001.Unpack at hok
  cases hv : (DPT_19001.assign data).IsValid
  · simp [hlen, hv] at hok
  · rfl

/-- `IsValid` reads the seven numeric fields only. -/
theorem DPT_19001.IsValid_congr (r s : DPT_19001) (hY : r.Year = s.Year)
    (hM : r.Month = s.Month) (hD : r.DayOfMonth = s.DayOfMonth) (hW : r.DayOfWeek = s.DayOfWeek)
    (hH : r.HourOfDay = s.HourOfDay) (hMi : r.Minutes = s.Minutes)
    (hS : r.Seconds = s.Seconds) : r.IsValid = s.IsValid := by
  unfold DPT_19001.IsValid
  rw [hY, hM, hD, hW, hH, hMi, hS]

theorem list_length_nine (data : List Nat) (hlen : data.length = 9) :
    ∃ b0 b1 b2 b3 b4 b5 b6 b7 b8, data = [b0, b1, b2, b3, b4, b5, b6, b7, b8] := by
  match data, hlen with
  | [b0, b1, b2, b3, b4, b5, b6, b7, b8], _ => exact ⟨b0, b1, b2, b3, b4, b5, b6, b7, b8, rfl⟩

set_option maxRecDepth 100000 in
/-- A byte is the weighted sum of its bits, read the way `Unpack` reads the flags. -/
theorem byte7_bits : ∀ b : Fin 256,
    128 * boolTOuint8 (unit8TObool (b.val >>> 7 &&& 0x1)) +
      64 * boolTOuint8 (unit8TObool (b.val >>> 6 &&& 0x1)) +
      32 * boolTOuint8 (unit8TObool (b.val >>> 5 &&& 0x1)) +
      16 * boolTOuint8 (unit8TObool (b.val >>> 4 &&& 0x1)) +
      8 * boolTOuint8 (unit8TObool (b.val >>> 3 &&& 0x1)) +
      4 * boolTOuint8 (unit8TObool (b.val >>> 2 &&& 0x1)) +
      2 * boolTOuint8 (unit8TObool (b.val >>> 1 &&& 0x1)) +
      boolTOuint8 (unit8TObool (b.val &&& 0x1)) = b.val := by
  decide

set_option maxRecDepth 100000 in
theorem byte8_bits : ∀ b : Fin 256,
    128 * boolTOuint8 (unit8TObool (b.val >>> 7 &&& 0x1)) = b.val &&& 0x80 ∧
      (b.val &&& 0x80 = b.val ↔ b.val % 128 = 0) := by
  decide

/-! ## The claims, continued -/

/-- C11. `IsValid` accepts every consistent record with an ordinary time of day: a year
from 1900 to 2155, a month from 1 to 12, a day from 1 to the length of that month in that
year (Gregorian), `DayOfWeek <= 7`, `HourOfDay <= 23`, `Minutes <= 59` and
`Seconds <= 59`. -/
theorem C11_consistent_accepted (r : DPT_19001) (hY1 : 1900 ≤ r.Year) (hY2 : r.Year ≤ 2155)
    (hM1 : 1 ≤ r.Month) (hM2 : r.Month ≤ 12) (hD1 : 1 ≤ r.DayOfMonth)
    (hD2 : r.DayOfMonth ≤ monthLength r.Year r.Month) (hW : r.DayOfWeek ≤ 7)
    (hH : r.HourOfDay ≤ 23) (hMi : r.Minutes ≤ 59) (hS : r.Seconds ≤ 59) :
    r.IsValid = true := by
  obtain ⟨t1, t2, t3⟩ := GoTime.Date_roundtrip r.Year r.Month r.DayOfMonth r.HourOfDay
    r.Minutes r.Seconds (by omega) hM1 hM2 hD1 hD2 hH hMi hS
  rw [DPT_19001.IsValid_iff]
  unfold DPT_19001.tm
  rw [t1, t2, t3]
  refine ⟨by omega, by omega, rfl, rfl, rfl, hW, by omega, ?_, hMi, hS⟩
  intro h24
  omega

/-- C11 at 29 February 2024, 23:59:58. -/
theorem C11_consistent_accepted_witness :
    (1900 ≤ sampleValid.Year ∧ sampleValid.Year ≤ 2155 ∧ 1 ≤ sampleValid.Month ∧
        sampleValid.Month ≤ 12 ∧ 1 ≤ sampleValid.DayOfMonth ∧
        sampleValid.DayOfMonth ≤ monthLength sampleValid.Year sampleValid.Month ∧
        sampleValid.DayOfWeek ≤ 7 ∧ sampleValid.HourOfDay ≤ 23 ∧ sampleValid.Minutes ≤ 59 ∧
        sampleValid.Seconds ≤ 59) ∧
      sampleValid.IsValid = true :=
  ⟨by decide,
   C11_consistent_accepted sampleValid (by decide) (by decide) (by decide) (by decide)
     (by decide) (by decide) (by decide) (by decide) (by decide) (by decide)⟩

/-- C12. The status flags are not cross-validated: two records that agree on `Year`,
`Month`, `DayOfMonth`, `DayOfWeek`, `HourOfDay`, `Minutes` and `Seconds` get the same
answer from `IsValid`, whatever their nine flags are. -/
theorem C12_flags_not_validated (r s : DPT_19001) (hY : r.Year = s.Year)
    (hM : r.Month = s.Month) (hD : r.DayOfMonth = s.DayOfMonth) (hW : r.DayOfWeek = s.DayOfWeek)
    (hH : r.HourOfDay = s.HourOfDay) (hMi : r.Minutes = s.Minutes)
    (hS : r.Seconds = s.Seconds) : r.IsValid = s.IsValid :=
  DPT_19001.IsValid_congr r s hY hM hD hW hH hMi hS

/-- C12 at a record of year 1899 with `NY` set and with `NY` clear: both are rejected, so
`NY = true` does not suppress the year-range check. -/
theorem C12_flags_not_validated_witness :
    (⟨1899, 6, 15, 0, 12, 0, 0, false, false, false, true, false, false, false, false,
        false⟩ : DPT_19001).IsValid =
      (⟨1899, 6, 15, 0, 12, 0, 0, true, true, true, false, true, true, true, true,
        true⟩ : DPT_19001).IsValid ∧
      (⟨1899, 6, 15, 0, 12, 0, 0, false, false, false, true, false, false, false, false,
        false⟩ : DPT_19001).IsValid = false :=
  ⟨C12_flags_not_validated _ _ rfl rfl rfl rfl rfl rfl rfl, by decide⟩

/-- C13. Bit-field isolation: for a valid record, negating only `CLQ` leaves the record
valid, leaves bytes 0 to 7 of `Pack` and bits 6:0 of byte 8 unchanged, and changes bit 7
of byte 8. -/
theorem C13_clq_isolated (r : DPT_19001) (h : r.IsValid = true) :
    ({ r with CLQ := !r.CLQ } : DPT_19001).IsValid = true ∧
      ({ r with CLQ := !r.CLQ } : DPT_19001).Pack.length = r.Pack.length ∧
      ({ r with CLQ := !r.CLQ } : DPT_19001).Pack.take 8 = r.Pack.take 8 ∧
      ({ r with CLQ := !r.CLQ } : DPT_19001).Pack.getD 8 0 % 128 = r.Pack.getD 8 0 % 128 ∧
      ({ r with CLQ := !r.CLQ } : DPT_19001).Pack.getD 8 0 < 256 ∧ r.Pack.getD 8 0 < 256 ∧
      (({ r with CLQ := !r.CLQ } : DPT_19001).Pack.getD 8 0).testBit 7 =
        !(r.Pack.getD 8 0).testBit 7 := by
  have h2 : ({ r with CLQ := !r.CLQ } : DPT_19001).IsValid = true := by
    rw [← h]; exact DPT_19001.IsValid_congr _ _ rfl rfl rfl rfl rfl rfl rfl
  refine ⟨h2, ?_⟩
  rw [DPT_19001.Pack_of_valid _ h2, DPT_19001.Pack_of_valid _ h]
  refine ⟨rfl, rfl, ?_⟩
  simp only [List.getD, List.get?, Option.getD]
  cases r.CLQ <;> decide

/-- C13 at a valid record with `CLQ` set. -/
theorem C13_clq_isolated_witness :
    sampleValid.IsValid = true ∧
      ({ sampleValid with CLQ := !sampleValid.CLQ } : DPT_19001).Pack =
        [0, 124, 2, 29, 151, 59, 58, 165, 0] ∧
      sampleValid.Pack = [0, 124, 2, 29, 151, 59, 58, 165, 128] ∧
      (({ sampleValid with CLQ := !sampleValid.CLQ } : DPT_19001).Pack.getD 8 0).testBit 7 =
        !(sampleValid.Pack.getD 8 0).testBit 7 :=
  ⟨by decide, by decide, by decide,
   (C13_clq_isolated sampleValid (by decide)).2.2.2.2.2.2⟩

/-- C14. The encode sentinel is not decodable: the fields extracted from nine zero bytes
are year 1900, month 0, day 0, `Unpack` of nine zero bytes returns the out-of-range error,
and so does `Unpack` of `Pack` of every record that `IsValid` rejects. -/
theorem C14_sentinel_not_decodable (r d : DPT_19001) (h : r.IsValid = false) :
    (DPT_19001.assign zeroBuffer).Year = 1900 ∧ (DPT_19001.assign zeroBuffer).Month = 0 ∧
      (DPT_19001.assign zeroBuffer).DayOfMonth = 0 ∧
      (d.Unpack zeroBuffer).2 = some Error.OutOfRange ∧
      (d.Unpack r.Pack).2 = some Error.OutOfRange := by
  have hz : (DPT_19001.assign zeroBuffer).IsValid = false := by decide
  have hu : (d.Unpack zeroBuffer).2 = some Error.OutOfRange := by
    rw [d.Unpack_of_invalid zeroBuffer rfl hz]
  rw [r.Pack_of_invalid h]
  exact ⟨by decide, by decide, by decide, hu, hu⟩

/-- C14 at the end-of-day record, which `IsValid` rejects. -/
theorem C14_sentinel_not_decodable_witness :
    sampleEndOfDay.IsValid = false ∧
      (sampleValid.Unpack sampleEndOfDay.Pack).2 = some Error.OutOfRange :=
  ⟨by decide, (C14_sentinel_not_decodable sampleEndOfDay sampleValid (by decide)).2.2.2.2⟩

/-- C17. No record with `HourOfDay = 24` is valid: `IsValid` implies `HourOfDay <= 23`.
The reason: for a date that exists and minutes and seconds up to 59, `time.Date` with hour
24 reports a day of the month different from `DayOfMonth`. -/
theorem C17_hour24_never_valid (r : DPT_19001) :
    (r.IsValid = true → r.HourOfDay ≤ 23) ∧
      (r.HourOfDay = 24 → r.Year ≤ 2155 → 1 ≤ r.Month → r.Month ≤ 12 → 1 ≤ r.DayOfMonth →
        r.DayOfMonth ≤ monthLength r.Year r.Month → r.Minutes ≤ 59 → r.Seconds ≤ 59 →
        r.tm.Day ≠ r.DayOfMonth) := by
  have key : r.HourOfDay = 24 → r.Year ≤ 2155 → 1 ≤ r.Month → r.Month ≤ 12 →
      1 ≤ r.DayOfMonth → r.DayOfMonth ≤ monthLength r.Year r.Month → r.Minutes ≤ 59 →
      r.Seconds ≤ 59 → r.tm.Day ≠ r.DayOfMonth := by
    intro h24 hY hM1 hM2 hD1 hD2 hMi hS
    unfold DPT_19001.tm
    rw [h24]
    exact GoTime.Date_hour24 r.Year r.Month r.DayOfMonth r.Minutes r.Seconds (by omega)
      hM1 hM2 hD1 hD2 hMi hS
  refine ⟨fun h => ?_, key⟩
  obtain ⟨b1, b2, b3, b4, b5, b6, b7, b8, b9, b10, b11, b12⟩ := r.IsValid_bounds h
  obtain ⟨g1, g2, g3, g4, g5, g6, g7, g8, g9, g10⟩ := (DPT_19001.IsValid_iff r).1 h
  by_contra hc
  have h24 : r.HourOfDay = 24 := by omega
  exact key h24 b2 b3 b4 b5 b6 b10 b11 g5.symm

/-- C17 at a valid record and at the end-of-day record, whose instant is 1 March 2024. -/
theorem C17_hour24_never_valid_witness :
    (sampleValid.IsValid = true ∧ sampleValid.HourOfDay ≤ 23) ∧
      (sampleEndOfDay.HourOfDay = 24 ∧ sampleEndOfDay.tm.Day ≠ sampleEndOfDay.DayOfMonth) :=
  ⟨⟨by decide, (C17_hour24_never_valid sampleValid).1 (by decide)⟩,
   ⟨by decide,
    (C17_hour24_never_valid sampleEndOfDay).2 (by decide) (by decide) (by decide) (by decide)
      (by decide) (by decide) (by decide) (by decide)⟩⟩

/-- C18. Re-encoding a decoded buffer canonicalises it: for every 9-byte buffer `b` on
which `Unpack` returns no error, `Pack` of the decoded record is
`[0, b[1], b[2] AND 0x0F, b[3] AND 0x1F, b[4], b[5] AND 0x3F, b[6] AND 0x3F, b[7],
b[8] AND 0x80]`; it equals `b` exactly when byte 0 and the reserved bits of `b` are zero;
and `Unpack` accepts a buffer whose byte 0 and reserved bits are all set. -/
theorem C18_repack_canonical (d : DPT_19001) (data : List Nat) (hlen : data.length = 9)
    (hb : IsBytes data) (hok : (d.Unpack data).2 = none) :
    (d.Unpack data).1.Pack =
        [0, data.getD 1 0, data.getD 2 0 &&& 0x0F, data.getD 3 0 &&& 0x1F, data.getD 4 0,
          data.getD 5 0 &&& 0x3F, data.getD 6 0 &&& 0x3F, data.getD 7 0,
          data.getD 8 0 &&& 0x80] ∧
      ((d.Unpack data).1.Pack = data ↔
        (data.getD 0 0 = 0 ∧ data.getD 2 0 / 16 = 0 ∧ data.getD 3 0 / 32 = 0 ∧
          data.getD 5 0 / 64 = 0 ∧ data.getD 6 0 / 64 = 0 ∧ data.getD 8 0 % 128 = 0)) ∧
      (IsBytes reservedBuffer ∧ reservedBuffer.length = 9 ∧
        (d.Unpack reservedBuffer).2 = none ∧ (d.Unpack reservedBuffer).1.Pack ≠ reservedBuffer) := by
  have hv := d.Unpack_ok data hlen hok
  have hex : (d.Unpack reservedBuffer).2 = none ∧
      (d.Unpack reservedBuffer).1.Pack ≠ reservedBuffer := by
    have a : DPT_19001.assign reservedBuffer = sampleValid := by decide
    have e : d.Unpack reservedBuffer = (sampleValid, none) := by
      rw [d.Unpack_of_valid reservedBuffer rfl (by decide), a]
    rw [e]
    exact ⟨rfl, by decide⟩
  have hcan : (d.Unpack data).1.Pack =
      [0, data.getD 1 0, data.getD 2 0 &&& 0x0F, data.getD 3 0 &&& 0x1F, data.getD 4 0,
        data.getD 5 0 &&& 0x3F, data.getD 6 0 &&& 0x3F, data.getD 7 0,
        data.getD 8 0 &&& 0x80] := by
    have h1 := hb.getD_lt data 1
    have h4 := hb.getD_lt data 4
    have h7 := byte7_bits ⟨data.getD 7 0, hb.getD_lt data 7⟩
    have h8 := (byte8_bits ⟨data.getD 8 0, hb.getD_lt data 8⟩).1
    simp only at h7 h8
    rw [d.Unpack_fst data hlen, DPT_19001.Pack_of_valid _ hv]
    unfold DPT_19001.assign
    dsimp only
    rw [h7, h8]
    have e1 : u16 (((data.getD 1 0 &&& 0xFF : Nat) : Int) + 1900) - 1900 = data.getD 1 0 := by
      rw [and_0xFF]; unfold u16; omega
    have e4 : (data.getD 4 0 >>> 5 &&& 0x07) * 32 + (data.getD 4 0 &&& 0x1F) = data.getD 4 0 := by
      rw [and_0x07, and_0x1F, Nat.shiftRight_eq_div_pow]; omega
    rw [e1, e4]
  refine ⟨hcan, ?_, by decide, by decide, hex⟩
  rw [hcan]
  obtain ⟨b0, b1, b2, b3, b4, b5, b6, b7, b8, rfl⟩ := list_length_nine data hlen
  have h8 := (byte8_bits ⟨b8, hb.getD_lt _ 8⟩).2
  simp only [List.getD, List.get?, Option.getD] at h8 ⊢
  simp only [List.cons.injEq, and_true, true_and, and_0xF, and_0x1F, and_0x3F, h8]
  constructor
  · rintro ⟨g0, g2, g3, g5, g6, g8⟩
    refine ⟨g0.symm, ?_, ?_, ?_, ?_, g8⟩ <;> omega
  · rintro ⟨g0, g2, g3, g5, g6, g8⟩
    refine ⟨g0.symm, ?_, ?_, ?_, ?_, g8⟩ <;> omega

/-- C18 at the buffer of a valid record, which is already canonical. -/
theorem C18_repack_canonical_witness :
    sampleValid.Pack.length = 9 ∧ IsBytes sampleValid.Pack ∧
      (sampleEndOfDay.Unpack sampleValid.Pack).2 = none ∧
      (sampleEndOfDay.Unpack sampleValid.Pack).1.Pack =
        [0, 124, 2 &&& 0x0F, 29 &&& 0x1F, 151, 59 &&& 0x3F, 58 &&& 0x3F, 165, 128 &&& 0x80] :=
  ⟨by decide, by decide, by decide,
   (C18_repack_canonical sampleEndOfDay sampleValid.Pack (by decide) (by decide)
      (by decide)).1⟩

/-- C19. `DayOfWeek` is never checked against the calendar: for every record and every
`w` from 0 to 7, `IsValid` gives the same answer with `DayOfWeek := w` as with
`DayOfWeek := 0`; 2 January 2023 (a Monday) with `DayOfWeek = 7` is valid. -/
theorem C19_weekday_unchecked (r : DPT_19001) (w : Nat) (hw : w ≤ 7) :
    ({ r with DayOfWeek := w } : DPT_19001).IsValid =
        ({ r with DayOfWeek := 0 } : DPT_19001).IsValid ∧
      ({ sampleMonday with DayOfWeek := 7 } : DPT_19001).IsValid = true := by
  refine ⟨?_, by decide⟩
  rw [Bool.eq_iff_iff, DPT_19001.IsValid_iff, DPT_19001.IsValid_iff]
  have t : ({ r with DayOfWeek := w } : DPT_19001).tm = ({ r with DayOfWeek := 0 } : DPT_19001).tm :=
    rfl
  rw [t]
  dsimp only
  constructor
  · rintro ⟨g1, g2, g3, g4, g5, g6, g7, g8, g9, g10⟩
    exact ⟨g1, g2, g3, g4, g5, by omega, g7, g8, g9, g10⟩
  · rintro ⟨g1, g2, g3, g4, g5, g6, g7, g8, g9, g10⟩
    exact ⟨g1, g2, g3, g4, g5, hw, g7, g8, g9, g10⟩

/-- C19 at 2 January 2023, a Monday, with `DayOfWeek = 7`. -/
theorem C19_weekday_unchecked_witness :
    (7 : Nat) ≤ 7 ∧
      ({ sampleMonday with DayOfWeek := 7 } : DPT_19001).IsValid =
        ({ sampleMonday with DayOfWeek := 0 } : DPT_19001).IsValid :=
  ⟨by decide, (C19_weekday_unchecked sampleMonday 7 (by decide)).1⟩

/-! ## Properties of the formatting -/

theorem digit_chars : ∀ d : Fin 10,
    Char.ofNat ((48 + d.val) % 256) = Nat.digitChar d.val ∧
      ldigits.getD d.val (Char.ofNat 48) = Nat.digitChar d.val := by
  decide

/-- The digit loop of `fmtInteger` writes the decimal numeral. -/
theorem fmtIntegerLoop_eq (fuel : Nat) : ∀ (u : Nat) (buf : List Char), u ≤ fuel →
    fmtIntegerLoop fuel u buf = Nat.toDigitsCore 10 (fuel + 1) u buf := by
  induction fuel with
  | zero =>
    intro u buf hu
    have h0 : u = 0 := by omega
    subst h0
    simp only [fmtIntegerLoop, Nat.toDigitsCore]
    rw [(digit_chars ⟨0, by omega⟩).2]
    rfl
  | succ n ih =>
    intro u buf hu
    rw [fmtIntegerLoop, Nat.toDigitsCore]
    by_cases h10 : u ≥ 10
    · have hne : u / 10 ≠ 0 := by omega
      have hc : Char.ofNat ((48 + u - u / 10 * 10) % 256) = Nat.digitChar (u % 10) := by
        have e : 48 + u - u / 10 * 10 = 48 + u % 10 := by omega
        rw [e]
        exact (digit_chars ⟨u % 10, by omega⟩).1
      simp only [h10, if_true, hne, if_false, hc]
      exact ih (u / 10) _ (by omega)
    · have h0 : u / 10 = 0 := by omega
      have hm : u % 10 = u := by omega
      have hc := (digit_chars ⟨u, by omega⟩).2
      simp only at hc
      simp only [h10, if_false, h0, if_true, hm, hc]

theorem fmtZeroPad_eq (fuel : Nat) : ∀ (prec : Nat) (buf : List Char),
    prec - buf.length ≤ fuel →
    fmtZeroPad fuel prec buf = List.replicate (prec - buf.length) (Char.ofNat 48) ++ buf := by
  induction fuel with
  | zero =>
    intro prec buf h
    have h0 : prec - buf.length = 0 := by omega
    simp [fmtZeroPad, h0]
  | succ n ih =>
    intro prec buf h
    rw [fmtZeroPad]
    by_cases hp : prec > buf.length
    · simp only [hp, if_true]
      rw [ih prec _ (by simp only [List.length_cons]; omega)]
      have e : prec - buf.length = (prec - (Char.ofNat 48 :: buf).length) + 1 := by
        simp only [List.length_cons]; omega
      rw [e, List.replicate_succ']
      simp
    · have h0 : prec - buf.length = 0 := by omega
      simp [hp, h0]

/-- The verb `%0<wid>d` writes the decimal numeral, left-padded with zeros to at least
`wid` digits. -/
theorem fmtD_eq_padN (wid u : Nat) : fmtD wid u = padN wid u := by
  unfold fmtD padN
  rw [fmtIntegerLoop_eq u u [] (Nat.le_refl u), fmtZeroPad_eq wid wid _ (by omega)]
  rfl

theorem fmtIntegerLoop_length (fuel : Nat) : ∀ (k u : Nat) (buf : List Char),
    u < 10 ^ (k + 1) →
    buf.length + 1 ≤ (fmtIntegerLoop fuel u buf).length ∧
      (fmtIntegerLoop fuel u buf).length ≤ buf.length + k + 1 := by
  induction fuel with
  | zero =>
    intro k u buf _
    simp only [fmtIntegerLoop, List.length_cons]
    omega
  | succ n ih =>
    intro k u buf hu
    rw [fmtIntegerLoop]
    by_cases h10 : u ≥ 10
    · simp only [h10, if_true]
      obtain ⟨j, rfl⟩ : ∃ j, k = j + 1 := by
        cases k with
        | zero => simp at hu; omega
        | succ j => exact ⟨j, rfl⟩
      have hu2 : u / 10 < 10 ^ (j + 1) := by
        rw [Nat.div_lt_iff_lt_mul (by omega)]
        rw [Nat.pow_succ] at hu
        exact hu
      have := ih j (u / 10) (Char.ofNat ((48 + u - u / 10 * 10) % 256) :: buf) hu2
      simp only [List.length_cons] at this
      omega
    · simp only [h10, if_false, List.length_cons]
      omega

/-- The verb `%0<wid>d` writes exactly `wid` characters for a number below `10 ^ wid`. -/
theorem fmtD_length (j u : Nat) (hu : u < 10 ^ (j + 1)) : (fmtD (j + 1) u).length = j + 1 := by
  unfold fmtD
  rw [fmtZeroPad_eq (j + 1) (j + 1) _ (by omega)]
  have h := fmtIntegerLoop_length u j u [] hu
  simp only [List.length_nil] at h
  show (List.replicate _ _ ++ _).length = j + 1
  rw [List.length_append, List.length_replicate]
  omega

/-! ## The claims on `String` -/

/-- C15. `String` renders the canonical form of whatever is in the fields: the year
padded to 4 digits, `-`, the month padded to 2, `-`, the day padded to 2, a space, the
weekday name and a space when `DayOfWeek` is from 1 to 7 (nothing otherwise), then hour,
minutes and seconds padded to 2 digits and separated by `:`. It gives
`2023-01-02 Monday 09:05:00` for the example record and `2023-01-02 09:05:00` for the same
record with `DayOfWeek = 0`. -/
theorem C15_string_canonical (r : DPT_19001) :
    r.String =
        padN 4 r.Year ++ "-" ++ padN 2 r.Month ++ "-" ++ padN 2 r.DayOfMonth ++ " " ++
          weekdayPart r.DayOfWeek ++ padN 2 r.HourOfDay ++ ":" ++ padN 2 r.Minutes ++ ":" ++
          padN 2 r.Seconds ∧
      sampleMonday.String = "2023-01-02 Monday 09:05:00" ∧
      ({ sampleMonday with DayOfWeek := 0 } : DPT_19001).String = "2023-01-02 09:05:00" := by
  refine ⟨?_, by decide, by decide⟩
  unfold DPT_19001.String weekdayPart weekdayNames
  simp only [fmtD_eq_padN]
  by_cases hw : 1 ≤ r.DayOfWeek ∧ r.DayOfWeek ≤ 7
  · have hg : (decide (0 < r.DayOfWeek) && decide (r.DayOfWeek ≤ 7)) = true := by
      simp only [Bool.and_eq_true, decide_eq_true_eq]; omega
    have hi : u8 (r.DayOfWeek + 256 - 1) = r.DayOfWeek - 1 := by unfold u8; omega
    rw [if_pos hg, if_pos hw, hi]
    simp only [String.append_assoc]
  · have hg : ¬ ((decide (0 < r.DayOfWeek) && decide (r.DayOfWeek ≤ 7)) = true) := by
      simp only [Bool.and_eq_true, decide_eq_true_eq]; omega
    rw [if_neg hg, if_neg hw]
    simp only [String.append_assoc, String.empty_append]

/-- C16, as stated, fails: a record of the Go type with `Year = 10000` and
`DayOfWeek = 0` is rendered with a five-digit year, 20 characters in all. -/
theorem C16_five_digit_year :
    sampleYear10000.InType ∧ sampleYear10000.DayOfWeek = 0 ∧
      sampleYear10000.String = "10000-01-02 09:05:00" ∧ sampleYear10000.String.length = 20 := by
  decide

/-- C16, amended. For every record, valid or not, with `Year <= 9999`, with `Month`,
`DayOfMonth`, `HourOfDay`, `Minutes` and `Seconds` at most 99, and with `DayOfWeek = 0` or
`DayOfWeek > 7`, `String` is exactly 19 characters long: the year takes 4 digits and each
of the other numbers 2. -/
theorem C16_string_width (r : DPT_19001) (hY : r.Year ≤ 9999) (hM : r.Month ≤ 99)
    (hD : r.DayOfMonth ≤ 99) (hH : r.HourOfDay ≤ 99) (hMi : r.Minutes ≤ 99)
    (hS : r.Seconds ≤ 99) (hW : r.DayOfWeek = 0 ∨ r.DayOfWeek > 7) :
    r.String.length = 19 ∧ (fmtD 4 r.Year).length = 4 ∧ (fmtD 2 r.Month).length = 2 ∧
      (fmtD 2 r.DayOfMonth).length = 2 ∧ (fmtD 2 r.HourOfDay).length = 2 ∧
      (fmtD 2 r.Minutes).length = 2 ∧ (fmtD 2 r.Seconds).length = 2 := by
  have l1 := fmtD_length 3 r.Year (by norm_num; omega)
  have l2 := fmtD_length 1 r.Month (by norm_num; omega)
  have l3 := fmtD_length 1 r.DayOfMonth (by norm_num; omega)
  have l4 := fmtD_length 1 r.HourOfDay (by norm_num; omega)
  have l5 := fmtD_length 1 r.Minutes (by norm_num; omega)
  have l6 := fmtD_length 1 r.Seconds (by norm_num; omega)
  refine ⟨?_, l1, l2, l3, l4, l5, l6⟩
  have hg : ¬ ((decide (0 < r.DayOfWeek) && decide (r.DayOfWeek ≤ 7)) = true) := by
    simp only [Bool.and_eq_true, decide_eq_true_eq]; omega
  unfold DPT_19001.String
  dsimp only
  rw [if_neg hg]
  simp only [String.length_append, l1, l2, l3, l4, l5, l6]
  rfl

/-- C16, amended, at the example record with `DayOfWeek = 0`. -/
theorem C16_string_width_witness :
    (({ sampleMonday with DayOfWeek := 0 } : DPT_19001).Year ≤ 9999 ∧
        ({ sampleMonday with DayOfWeek := 0 } : DPT_19001).DayOfWeek = 0) ∧
      ({ sampleMonday with DayOfWeek := 0 } : DPT_19001).String.length = 19 :=
  ⟨by decide,
   (C16_string_width ({ sampleMonday with DayOfWeek := 0 } : DPT_19001) (by decide)
      (by decide) (by decide) (by decide) (by decide) (by decide) (Or.inl rfl)).1⟩

/-! ## `Unpack` on the bytes of the buffer -/

/-- The masks and shifts of `Unpack` extract the fields of the wire layout. -/
theorem DPT_19001.assign_eq_wireRecord (data : List Nat) (hb : IsBytes data) :
    DPT_19001.assign data = wireRecord data := by
  have h1 := hb.getD_lt data 1
  have e1 : u16 (((data.getD 1 0 &&& 0xFF : Nat) : Int) + 1900) = data.getD 1 0 + 1900 := by
    rw [and_0xFF]; unfold u16; omega
  have e4 : data.getD 4 0 >>> 5 &&& 0x07 = data.getD 4 0 / 32 := by
    have h4 := hb.getD_lt data 4
    rw [and_0x07, Nat.shiftRight_eq_div_pow]; omega
  unfold DPT_19001.assign wireRecord
  rw [DPT_19001.mk.injEq]
  exact ⟨e1, and_0xF _, and_0x1F _, e4, and_0x1F _, and_0x3F _, and_0x3F _,
    unit8TObool_bit _ 7, unit8TObool_bit _ 6, unit8TObool_bit _ 5, unit8TObool_bit _ 4,
    unit8TObool_bit _ 3, unit8TObool_bit _ 2, unit8TObool_bit _ 1, unit8TObool_bit0 _,
    unit8TObool_bit _ 7⟩

/-- The records `IsValid` accepts are exactly the consistent ones: a year from 1900 to
2155, a date that exists in the Gregorian calendar, a weekday up to 7 and a time of day
up to 23:59:59. -/
theorem DPT_19001.IsValid_iff_consistent (r : DPT_19001) :
    r.IsValid = true ↔
      (1900 ≤ r.Year ∧ r.Year ≤ 2155 ∧ 1 ≤ r.Month ∧ r.Month ≤ 12 ∧ 1 ≤ r.DayOfMonth ∧
        r.DayOfMonth ≤ monthLength r.Year r.Month ∧ r.DayOfWeek ≤ 7 ∧ r.HourOfDay ≤ 23 ∧
        r.Minutes ≤ 59 ∧ r.Seconds ≤ 59) := by
  constructor
  · intro h
    obtain ⟨b1, b2, b3, b4, b5, b6, b7, b8, b9, b10, b11, b12⟩ := r.IsValid_bounds h
    obtain ⟨g1, g2, g3, g4, g5, g6, g7, g8, g9, g10⟩ := (DPT_19001.IsValid_iff r).1 h
    refine ⟨b1, b2, b3, b4, b5, b6, b8, ?_, b10, b11⟩
    by_contra hc
    have h24 : r.HourOfDay = 24 := by omega
    have hne := GoTime.Date_hour24 r.Year r.Month r.DayOfMonth r.Minutes r.Seconds (by omega)
      b3 b4 b5 b6 b10 b11
    unfold DPT_19001.tm at g5
    rw [h24] at g5
    exact hne g5.symm
  · rintro ⟨hY1, hY2, hM1, hM2, hD1, hD2, hW, hH, hMi, hS⟩
    obtain ⟨t1, t2, t3⟩ := GoTime.Date_roundtrip r.Year r.Month r.DayOfMonth r.HourOfDay
      r.Minutes r.Seconds (by omega) hM1 hM2 hD1 hD2 hH hMi hS
    rw [DPT_19001.IsValid_iff]
    unfold DPT_19001.tm
    rw [t1, t2, t3]
    refine ⟨by omega, by omega, rfl, rfl, rfl, hW, by omega, ?_, hMi, hS⟩
    intro h24
    omega

/-! ## The claims on `Unpack` in bytes -/

/-- C3, as stated, fails: unpacking a buffer whose fields are 30 February 2024 into a
receiver that held a valid record (29 February 2024) returns the out-of-range error, and
the receiver no longer holds its former values: it holds the rejected fields of the
buffer, among them day 30. The same happens with nine zero bytes (year 1900, month 0,
day 0). -/
theorem C3_receiver_overwritten :
    sampleValid.InType ∧ sampleValid.IsValid = true ∧ IsBytes rejectedBuffer ∧
      rejectedBuffer.length = 9 ∧
      (sampleValid.Unpack rejectedBuffer).2 = some Error.OutOfRange ∧
      (sampleValid.Unpack rejectedBuffer).1 ≠ sampleValid ∧
      (sampleValid.Unpack rejectedBuffer).1 =
        (⟨2024, 2, 30, 4, 23, 59, 58, true, false, true, false, false, true, false, true,
          true⟩ : DPT_19001) ∧
      (sampleValid.Unpack zeroBuffer).2 = some Error.OutOfRange ∧
      (sampleValid.Unpack zeroBuffer).1 =
        (⟨1900, 0, 0, 0, 0, 0, 0, false, false, false, false, false, false, false, false,
          false⟩ : DPT_19001) := by
  decide

/-- C3, amended. When `Unpack` is given a 9-byte buffer whose fields (read off the bytes
by the wire layout) fail `IsValid`, it returns the out-of-range error and the receiver
holds exactly those fields, whatever it held before the call: `Year = b[1] + 1900`,
`Month = b[2] mod 16`, `DayOfMonth = b[3] mod 32`, `DayOfWeek = b[4] div 32`,
`HourOfDay = b[4] mod 32`, `Minutes = b[5] mod 64`, `Seconds = b[6] mod 64`, the flags
bits 7 down to 0 of `b[7]` and `CLQ` bit 7 of `b[8]`. -/
theorem C3_unpack_out_of_range (d : DPT_19001) (data : List Nat) (hlen : data.length = 9)
    (hb : IsBytes data) (hbad : (wireRecord data).IsValid = false) :
    (d.Unpack data).2 = some Error.OutOfRange ∧
      (d.Unpack data).1 = wireRecord data ∧
      (d.Unpack data).1.Year = data.getD 1 0 + 1900 ∧
      (d.Unpack data).1.Month = data.getD 2 0 % 16 ∧
      (d.Unpack data).1.DayOfMonth = data.getD 3 0 % 32 ∧
      (d.Unpack data).1.DayOfWeek = data.getD 4 0 / 32 ∧
      (d.Unpack data).1.HourOfDay = data.getD 4 0 % 32 ∧
      (d.Unpack data).1.Minutes = data.getD 5 0 % 64 ∧
      (d.Unpack data).1.Seconds = data.getD 6 0 % 64 ∧
      (d.Unpack data).1.F = (data.getD 7 0).testBit 7 ∧
      (d.Unpack data).1.WD = (data.getD 7 0).testBit 6 ∧
      (d.Unpack data).1.NWD = (data.getD 7 0).testBit 5 ∧
      (d.Unpack data).1.NY = (data.getD 7 0).testBit 4 ∧
      (d.Unpack data).1.ND = (data.getD 7 0).testBit 3 ∧
      (d.Unpack data).1.NDoW = (data.getD 7 0).testBit 2 ∧
      (d.Unpack data).1.NT = (data.getD 7 0).testBit 1 ∧
      (d.Unpack data).1.SUTI = (data.getD 7 0).testBit 0 ∧
      (d.Unpack data).1.CLQ = (data.getD 8 0).testBit 7 ∧
      (d.Unpack data).1.IsValid = false := by
  have ha := DPT_19001.assign_eq_wireRecord data hb
  have hu := d.Unpack_of_invalid data hlen (by rw [ha]; exact hbad)
  rw [hu, ha]
  exact ⟨rfl, rfl, rfl, rfl, rfl, rfl, rfl, rfl, rfl, rfl, rfl, rfl, rfl, rfl, rfl, rfl, rfl,
    rfl, hbad⟩

/-- C3, amended, at a buffer whose fields are 30 February 2024 and whose byte 0 and
reserved bits are set: the receiver, which held 29 February 2024, holds day 30 after the
call. -/
theorem C3_unpack_out_of_range_witness :
    rejectedBuffer.length = 9 ∧ IsBytes rejectedBuffer ∧
      (wireRecord rejectedBuffer).IsValid = false ∧
      (sampleValid.Unpack rejectedBuffer).2 = some Error.OutOfRange ∧
      (sampleValid.Unpack rejectedBuffer).1 =
        (⟨2024, 2, 30, 4, 23, 59, 58, true, false, true, false, false, true, false, true,
          true⟩ : DPT_19001) :=
  ⟨by decide, by decide, by decide,
   (C3_unpack_out_of_range sampleValid rejectedBuffer (by decide) (by decide) (by decide)).1,
   (C3_unpack_out_of_range sampleValid rejectedBuffer (by decide) (by decide)
      (by decide)).2.1.trans (by decide)⟩

/-- C5. For every 9-byte buffer `b`, `Unpack` returns no error exactly when the record
read off the bytes by the wire layout satisfies `IsValid`, that is, exactly when
`1 <= b[2] mod 16 <= 12`, `1 <= b[3] mod 32 <=` the length of that month in year
`b[1] + 1900`, `b[4] mod 32 <= 23`, `b[5] mod 64 <= 59` and `b[6] mod 64 <= 59`;
otherwise it returns the out-of-range error. The record left by a call that returned no
error is the record of the wire layout and satisfies `IsValid`. -/
theorem C5_unpack_ok_iff_valid (d : DPT_19001) (data : List Nat) (hlen : data.length = 9)
    (hb : IsBytes data) :
    ((d.Unpack data).2 = none ↔ (wireRecord data).IsValid = true) ∧
      ((d.Unpack data).2 = none ↔
        (1 ≤ data.getD 2 0 % 16 ∧ data.getD 2 0 % 16 ≤ 12 ∧ 1 ≤ data.getD 3 0 % 32 ∧
          data.getD 3 0 % 32 ≤ monthLength (data.getD 1 0 + 1900) (data.getD 2 0 % 16) ∧
          data.getD 4 0 % 32 ≤ 23 ∧ data.getD 5 0 % 64 ≤ 59 ∧ data.getD 6 0 % 64 ≤ 59)) ∧
      ((d.Unpack data).2 ≠ none → (d.Unpack data).2 = some Error.OutOfRange) ∧
      ((wireRecord data).IsValid = false → (d.Unpack data).2 = some Error.OutOfRange) ∧
      ((d.Unpack data).2 = none →
        (d.Unpack data).1 = wireRecord data ∧ (d.Unpack data).1.IsValid = true) := by
  have ha := DPT_19001.assign_eq_wireRecord data hb
  have h1 := hb.getD_lt data 1
  have h4 := hb.getD_lt data 4
  have hc := DPT_19001.IsValid_iff_consistent (wireRecord data)
  have hbytes : (wireRecord data).IsValid = true ↔
      (1 ≤ data.getD 2 0 % 16 ∧ data.getD 2 0 % 16 ≤ 12 ∧ 1 ≤ data.getD 3 0 % 32 ∧
        data.getD 3 0 % 32 ≤ monthLength (data.getD 1 0 + 1900) (data.getD 2 0 % 16) ∧
        data.getD 4 0 % 32 ≤ 23 ∧ data.getD 5 0 % 64 ≤ 59 ∧ data.getD 6 0 % 64 ≤ 59) := by
    rw [hc]
    unfold wireRecord
    dsimp only
    constructor
    · rintro ⟨_, _, g3, g4, g5, g6, _, g8, g9, g10⟩
      exact ⟨g3, g4, g5, g6, g8, g9, g10⟩
    · rintro ⟨g3, g4, g5, g6, g8, g9, g10⟩
      exact ⟨by omega, by omega, g3, g4, g5, g6, by omega, g8, g9, g10⟩
  cases hv : (wireRecord data).IsValid
  · have hu := d.Unpack_of_invalid data hlen (by rw [ha]; exact hv)
    rw [hv] at hbytes
    rw [hu]
    refine ⟨by simp, ?_, fun _ => rfl, fun _ => rfl, fun h => by simp at h⟩
    constructor
    · intro h; simp at h
    · intro h; exact absurd (hbytes.2 h) (by simp)
  · have hu := d.Unpack_of_valid data hlen (by rw [ha]; exact hv)
    rw [hv] at hbytes
    rw [hu, ha]
    refine ⟨by simp, ?_, fun h => absurd rfl h, fun h => by simp at h, fun _ => ⟨rfl, hv⟩⟩
    exact ⟨fun _ => hbytes.1 rfl, fun _ => rfl⟩

/-- C5 at an accepted buffer that is not canonical (byte 0 and the reserved bits set,
fields 29 February 2024, 23:59:58) and at a rejected one (30 February 2024). -/
theorem C5_unpack_ok_iff_valid_witness :
    (reservedBuffer.length = 9 ∧ IsBytes reservedBuffer ∧
        (sampleEndOfDay.Unpack reservedBuffer).2 = none ∧
        (sampleEndOfDay.Unpack reservedBuffer).1 = sampleValid) ∧
      (rejectedBuffer.length = 9 ∧ IsBytes rejectedBuffer ∧
        (sampleEndOfDay.Unpack rejectedBuffer).2 = some Error.OutOfRange) :=
  ⟨⟨by decide, by decide,
    (C5_unpack_ok_iff_valid sampleEndOfDay reservedBuffer (by decide) (by decide)).2.1.2
      (by decide),
    ((C5_unpack_ok_iff_valid sampleEndOfDay reservedBuffer (by decide) (by decide)).2.2.2.2
      (by decide)).1.trans (by decide)⟩,
   ⟨by decide, by decide,
    (C5_unpack_ok_iff_valid sampleEndOfDay rejectedBuffer (by decide) (by decide)).2.2.2.1
      (by decide)⟩⟩

end Knx
